import Mathlib

/-!
Verification of the Olist bronze-layer ingestion core against its
natural-language specification.  The Python modules `db.py`,
`load_bronze.py` and `quality_bronze.py` are shallowly embedded as pure
Lean functions: database transactions become explicit state passing over
a working copy that is only published on commit, SQL row operations
become list operations, and Python exceptions become explicit error
values.  A fault-injection parameter stands for an exception raised by
the database driver at any of the SQL statements of the staged load.
-/

namespace Olist

/-! ### Rows and tables (bronze target tables, `db.py`) -/

/-- A raw CSV record: one optional string per CSV column (`None` models
a SQL NULL produced by an empty CSV field). -/
abbrev Payload := List (Option String)

/-- One row of a bronze target table: the raw payload plus the four
lineage metadata values appended by the loader for the columns
`_snapshot_id`, `_run_id`, `_inserted_at`, `_source_file`. -/
structure BronzeRow where
  payload : Payload
  snapshotId : String
  runId : String
  insertedAt : Nat
  sourceFile : String
  deriving Repr, DecidableEq

/-- The content of one bronze target table. -/
abbrev BronzeTable := List BronzeRow

/-- `ALLOWED_TABLES` from `db.py`: the fixed allow-list of loadable
target tables (a Python set, modelled as a list; only membership is
used). -/
def ALLOWED_TABLES : List String :=
  ["orders", "order_items", "customers", "products", "sellers",
   "order_reviews", "order_payments", "geolocation",
   "product_category_name_translation"]

/-- `METADATA_COLS` from `db.py`: the lineage columns dropped from the
staging table so that its shape matches the raw CSV. -/
def METADATA_COLS : List String :=
  ["_snapshot_id", "_run_id", "_inserted_at", "_source_file"]

/-- The Python exceptions that `load_csv_via_temp_table` can raise.
`valueError` models `ValueError` (raised by the two security
validations), `fileNotFoundError` models `FileNotFoundError`, and
`loadError` models `LoadError(table, message)` from `db.py`.  The
Python messages quote the offending table name; the quotes are omitted
here. -/
inductive DbErr
  | valueError (msg : String)
  | fileNotFoundError (msg : String)
  | loadError (table : String) (cause : String)
  deriving Repr, DecidableEq

/-- The `LoadResult` dataclass of `db.py` (the wall-clock
`duration_seconds` field is omitted: it is real time, not data). -/
structure LoadResult where
  table : String
  snapshot_id : String
  run_id : String
  rows_inserted : Nat
  rows_deleted : Nat
  deriving Repr, DecidableEq

/-- Derived `net_rows` property of `LoadResult`. -/
def LoadResult.net_rows (r : LoadResult) : Int :=
  (r.rows_inserted : Int) - (r.rows_deleted : Int)

/-! ### Paths and the filesystem

A path is modelled as the list of components of its absolute,
normalised resolution (the result of `os.path.abspath`). -/

abbrev AbsPath := List String

/-- `os.path.commonpath` on two absolute paths: the longest common
component prefix. -/
def commonPath : AbsPath → AbsPath → AbsPath
  | a :: as, b :: bs => if a = b then a :: commonPath as bs else []
  | _, _ => []

/-- The readable filesystem: a finite map from absolute paths to parsed
CSV contents (list of data rows; the header row is already skipped, as
`COPY ... WITH CSV HEADER` does). -/
abbrev Fs := List (AbsPath × List Payload)

def fsLookup : Fs → AbsPath → Option (List Payload)
  | [], _ => none
  | (q, rows) :: rest, p => if q = p then some rows else fsLookup rest p

/-! ### The staged load (`load_csv_via_temp_table`, db.py lines 277-380)

The SQL statements executed inside the transaction are mirrored one by
one.  `Fault` injects a database exception at a chosen statement; the
string is the exception text (`str(e)` in the Python handler). -/

/-- The SQL statements the loader issues, recorded as a trace so that
"performs zero database writes" is expressible. -/
inductive SqlOp
  | createTemp
  | alterDropCol (c : String)
  | copyIn
  | selectCount
  | deleteWhere
  | insertSelect
  | commitTx
  | rollbackTx
  deriving Repr, DecidableEq

/-- The staged database steps of `load_csv_via_temp_table`, in source
order (staging-table creation through the staged-row count). -/
inductive DbStep
  | createTempTable
  | dropMetadataCols
  | copyCsv
  | countExisting
  | deleteSnapshot
  | insertTarget
  | countTemp
  deriving Repr, DecidableEq

/-- Transaction-local state: the uncommitted working copy of the target
table, the temp table contents, the DELETE rowcount, and the statement
trace. -/
structure TxCtx where
  working : BronzeTable
  temp : List Payload
  deleted : Nat
  ops : List SqlOp
  deriving Repr, DecidableEq

/-- The arguments of one `load_csv_via_temp_table` call.  `csv_path` is
the absolute resolution of the Python `csv_path` argument; `now` is the
database timestamp used for `_inserted_at` (`NOW()`). -/
structure LoadParams where
  csv_path : AbsPath
  table_name : String
  snapshot_id : String
  run_id : String
  source_file : String
  now : Nat
  deriving Repr, DecidableEq

/-- The row shape produced by `INSERT INTO target SELECT *, %s, %s,
NOW(), %s FROM tmp`. -/
def mkBronzeRow (p : LoadParams) (pl : Payload) : BronzeRow :=
  ⟨pl, p.snapshot_id, p.run_id, p.now, p.source_file⟩

/-- Effect of one staged step on the transaction-local state, mirroring
the statements of db.py lines 314-354. -/
def stepRun (p : LoadParams) (fileRows : List Payload) (st : TxCtx) : DbStep → TxCtx
  | .createTempTable =>
      { st with temp := [], ops := st.ops ++ [.createTemp] }
  | .dropMetadataCols =>
      { st with ops := st.ops ++ METADATA_COLS.map SqlOp.alterDropCol }
  | .copyCsv =>
      { st with temp := fileRows, ops := st.ops ++ [.copyIn] }
  | .countExisting =>
      { st with ops := st.ops ++ [.selectCount] }
  | .deleteSnapshot =>
      { st with
        working := st.working.filter (fun r => !(r.snapshotId == p.snapshot_id)),
        deleted := (st.working.filter (fun r => r.snapshotId == p.snapshot_id)).length,
        ops := st.ops ++ [.deleteWhere] }
  | .insertTarget =>
      { st with working := st.working ++ st.temp.map (mkBronzeRow p),
                ops := st.ops ++ [.insertSelect] }
  | .countTemp =>
      { st with ops := st.ops ++ [.selectCount] }

/-- The staged steps in the order the source executes them. -/
def dbSteps : List DbStep :=
  [.createTempTable, .dropMetadataCols, .copyCsv, .countExisting,
   .deleteSnapshot, .insertTarget, .countTemp]

/-- A fault injection: `some (s, msg)` means the database raises an
exception with text `msg` at step `s`; `none` means every statement
succeeds. -/
abbrev Fault := Option (DbStep × String)

/-- Run the staged steps, stopping with the exception text at the
injected fault. -/
def runSteps (p : LoadParams) (fileRows : List Payload) (fault : Fault) :
    TxCtx → List DbStep → TxCtx × Option String
  | st, [] => (st, none)
  | st, s :: rest =>
      match fault with
      | some (fs, msg) =>
          if fs = s then (st, some msg)
          else runSteps p fileRows fault (stepRun p fileRows st s) rest
      | none => runSteps p fileRows fault (stepRun p fileRows st s) rest

/-- Shallow embedding of `load_csv_via_temp_table` (db.py lines
277-380).  Returns the committed table content after the call, the
trace of SQL statements issued, and either the `LoadResult` or the
raised exception.  The validations (allow-list, path containment, file
existence) run in source order before any SQL; on a database fault the
whole unit of work is rolled back, so the committed content reverts to
the input `db`. -/
def load_csv_via_temp_table (cwd : AbsPath) (fs : Fs) (fault : Fault)
    (db : BronzeTable) (p : LoadParams) :
    BronzeTable × List SqlOp × Except DbErr LoadResult :=
  if p.table_name ∉ ALLOWED_TABLES then
    (db, [], .error (.valueError ("Security Error: Invalid table name " ++ p.table_name)))
  else
    let base_dir := cwd ++ ["Data"]
    if commonPath base_dir p.csv_path ≠ base_dir then
      (db, [], .error (.valueError "Invalid CSV path"))
    else
      match fsLookup fs p.csv_path with
      | none => (db, [], .error (.fileNotFoundError "CSV file not found"))
      | some fileRows =>
          match runSteps p fileRows fault ⟨db, [], 0, []⟩ dbSteps with
          | (st, some msg) =>
              (db, st.ops ++ [.rollbackTx], .error (.loadError p.table_name msg))
          | (st, none) =>
              (st.working, st.ops ++ [.commitTx],
               .ok ⟨p.table_name, p.snapshot_id, p.run_id, st.temp.length, st.deleted⟩)

/-- Number of target rows currently tagged with a snapshot id. -/
def countSnapRows (db : BronzeTable) (snap : String) : Nat :=
  (db.filter (fun r => r.snapshotId == snap)).length

/-! ### Quality gate (`quality_bronze.py`)

For the quality checks a bronze row is viewed through its column names:
`vals` maps a column name to its value, where `none` models SQL NULL.
A `details` payload is an association list of diagnostic values,
mirroring the Python dict. -/

structure BRow where
  snap : String
  vals : List (String × Option String)
  deriving Repr, DecidableEq

abbrev QTable := List BRow

/-- Value of a named column in a row; an absent binding reads as NULL. -/
def colVal (r : BRow) (c : String) : Option String :=
  match r.vals.lookup c with
  | some v => v
  | none => none

/-- A diagnostic value stored in a `details` payload. -/
inductive DVal
  | nat (n : Nat)
  | rat (q : ℚ)
  | str (s : String)
  | null
  deriving Repr, DecidableEq

/-- The `QualityResult` dataclass of `quality_bronze.py`. -/
structure QualityResult where
  table : String
  check_name : String
  passed : Bool
  details : List (String × DVal)
  deriving Repr, DecidableEq

/-- `PRIMARY_KEYS` from `quality_bronze.py`: declared primary-key
columns per table. -/
def PRIMARY_KEYS : List (String × List String) :=
  [("orders", ["order_id"]),
   ("order_items", ["order_id", "order_item_id"]),
   ("customers", ["customer_id"]),
   ("products", ["product_id"]),
   ("sellers", ["seller_id"]),
   ("order_reviews", ["review_id"]),
   ("order_payments", ["order_id"]),
   ("geolocation", ["geolocation_zip_code_prefix"]),
   ("product_category_name_translation", ["product_category_name"])]

/-- `PRIMARY_KEYS.get(table_name, [])`. -/
def pkColumns (t : String) : List String := (PRIMARY_KEYS.lookup t).getD []

/-- `SELECT COUNT(*) FROM bronze.t WHERE _snapshot_id = %s`. -/
def qCountRows (tbl : QTable) (snap : String) : Nat :=
  (tbl.filter (fun r => r.snap == snap)).length

/-- `COUNT(*) FILTER (WHERE col IS NULL)` over the snapshot's rows. -/
def qCountNulls (tbl : QTable) (snap col : String) : Nat :=
  (tbl.filter (fun r => r.snap == snap && (colVal r col).isNone)).length

/-- The Python comparison `actual == expected_rows` where
`expected_rows` may be `None`: an `int` compared with `None` is
`False`. -/
def pyEqOptNat (a : Nat) : Option Nat → Bool
  | some e => a == e
  | none => false

/-- Python `round(q, 4)` on the null rate, modelled over the rationals
(Python rounds the binary float half-to-even; ties play no role in the
claims). -/
def roundTo4 (q : ℚ) : ℚ := (round (q * 10000) : ℤ) / 10000

/-- `check_row_count` (quality_bronze.py lines 32-54): compares the
landed row count for the snapshot with the manifest's expected count.
`expected_rows` is `none` when the manifest row count is unavailable. -/
def check_row_count (tbl : QTable) (table_name snapshot_id : String)
    (expected_rows : Option Nat) : QualityResult :=
  let actual := (tbl.filter (fun r => r.snap == snapshot_id)).length
  { table := table_name
    check_name := "row_count"
    passed := pyEqOptNat actual expected_rows
    details := [("expected", match expected_rows with | some e => .nat e | none => .null),
                ("actual", .nat actual)] }

/-- `check_not_empty` (quality_bronze.py lines 57-75). -/
def check_not_empty (tbl : QTable) (table_name snapshot_id : String) : QualityResult :=
  let count := (tbl.filter (fun r => r.snap == snapshot_id)).length
  { table := table_name
    check_name := "not_empty"
    passed := decide (0 < count)
    details := [("row_count", .nat count)] }

/-- The per-column body of `check_primary_key_nulls` (quality_bronze.py
lines 83-112). -/
def checkPkNullCol (tbl : QTable) (table_name snapshot_id col : String) : QualityResult :=
  let total := (tbl.filter (fun r => r.snap == snapshot_id)).length
  let null_count :=
    (tbl.filter (fun r => r.snap == snapshot_id && (colVal r col).isNone)).length
  let null_rate : ℚ := if 0 < total then (null_count : ℚ) / (total : ℚ) else 0
  { table := table_name
    check_name := "pk_null_" ++ col
    passed := null_count == 0
    details := [("column", .str col), ("total", .nat total),
                ("null_count", .nat null_count),
                ("null_rate", .rat (roundTo4 null_rate))] }

/-- `check_primary_key_nulls` (quality_bronze.py lines 77-114): one
result per declared primary-key column of the table. -/
def check_primary_key_nulls (tbl : QTable) (table_name snapshot_id : String) :
    List QualityResult :=
  (pkColumns table_name).map (checkPkNullCol tbl table_name snapshot_id)

/-! ### Connection acquisition retry (`_acquire_connection`, db.py
lines 195-202)

The tenacity decorator is
`retry(retry=retry_if_exception_type((OperationalError, InterfaceError)),
stop=stop_after_attempt(3), wait=wait_exponential(multiplier=0.5, min=1, max=5))`.
Exceptions are modelled by their class: `operationalError` and
`interfaceError` are the transient connectivity classes psycopg2
raises; `configError` is the repository's `ConfigError` raised by
`_validate_config` for missing configuration; `otherError` stands for
any other class (authentication/authorization errors and the rest). -/

inductive PgErrClass
  | operationalError
  | interfaceError
  | configError
  | otherError
  deriving Repr, DecidableEq

structure PgErr where
  cls : PgErrClass
  msg : String
  deriving Repr, DecidableEq

/-- `retry_if_exception_type((OperationalError, InterfaceError))`: the
only exception classes that are retried. -/
def isTransient (e : PgErr) : Bool :=
  e.cls == .operationalError || e.cls == .interfaceError

/-- tenacity `wait_exponential(multiplier, min, max)` evaluated after
the failure of attempt number `attemptNumber`:
`max(max(0, min), min(multiplier * 2 ** attempt_number, max))`. -/
def waitExponential (multiplier mn mx : ℚ) (attemptNumber : Nat) : ℚ :=
  max (max 0 mn) (min (multiplier * 2 ^ attemptNumber) mx)

/-- Outcome of the decorated `_acquire_connection`: a pooled connection,
an immediately re-raised non-retryable exception, or tenacity's
`RetryError` after the attempt budget is exhausted (wrapping the last
exception). -/
inductive AcquireOutcome
  | acquired
  | raised (e : PgErr)
  | retryExhausted (e : PgErr)
  deriving Repr, DecidableEq

/-- The tenacity retry loop: `outcomes n` is what the n-th call of the
wrapped function does (1-based).  Returns the outcome, the number of
attempts made, and the list of backoff waits (in seconds) slept between
attempts.  The fuel argument is the remaining attempt budget
(`stop_after_attempt(3)` starts it at 3, so the zero-fuel branch is
never reached from `_acquire_connection`). -/
def retryLoop (outcomes : Nat → Except PgErr Unit) :
    Nat → Nat → List ℚ → AcquireOutcome × Nat × List ℚ
  | attempt, 0, waits => (.retryExhausted ⟨.otherError, ""⟩, attempt, waits)
  | attempt, remaining + 1, waits =>
      match outcomes attempt with
      | .ok _ => (.acquired, attempt, waits)
      | .error e =>
          if isTransient e = false then (.raised e, attempt, waits)
          else if remaining = 0 then (.retryExhausted e, attempt, waits)
          else retryLoop outcomes (attempt + 1) remaining
                 (waits ++ [waitExponential (1/2) 1 5 attempt])

/-- Shallow embedding of the decorated `_acquire_connection`. -/
def _acquire_connection (outcomes : Nat → Except PgErr Unit) :
    AcquireOutcome × Nat × List ℚ :=
  retryLoop outcomes 1 3 []

/-! ### Health check (`health_check`, db.py lines 239-262) -/

/-- The pool statistics reported by a live pool. -/
structure PoolStats where
  min_conn : Nat
  max_conn : Nat
  available : Nat
  in_use : Nat
  closed : Bool
  deriving Repr, DecidableEq

/-- The dictionary returned by `health_check`.  `database` and `pool`
model keys only present in the healthy dictionary (`pool` itself holds
`none` for the empty stats dict reported when the global pool is
unset); `error` is only present in the unhealthy one. -/
structure HealthReport where
  status : String
  database : Option (Option String)
  pool : Option (Option PoolStats)
  error : Option String
  deriving Repr, DecidableEq

/-- Outcome of the probe inside `health_check`: acquiring a pooled
connection (with retries) and executing `SELECT 1`.  A query failure is
re-raised by `get_db_connection` as `DbConnectionError(str(e))`, whose
text is the original text; an acquisition failure propagates as is. -/
def probeOutcome (acq : AcquireOutcome) (query : Except String Unit) :
    Except String Unit :=
  match acq with
  | .acquired => query
  | .raised e => .error e.msg
  | .retryExhausted e => .error ("RetryError: " ++ e.msg)

/-- Shallow embedding of `health_check`: a total function — every
exception from the probe is absorbed into the unhealthy dictionary,
never propagated. -/
def health_check (acq : AcquireOutcome) (query : Except String Unit)
    (dbPool : Option PoolStats) (envDatabase : Option String) : HealthReport :=
  match probeOutcome acq query with
  | .ok _ =>
      { status := "healthy", database := some envDatabase,
        pool := some dbPool, error := none }
  | .error e =>
      { status := "unhealthy", database := none, pool := none, error := some e }

/-! ### Lineage store and orchestrator (`load_bronze.py`)

The three `ingestion` relations touched by the orchestrator are
modelled as lists of rows; each helper of `load_bronze.py` is one
committed unit of work.  The staged load, manifest recording and
quality checks executed inside the per-file `try` block are abstracted
by a `FileOutcome` oracle saying where (if anywhere) that block raises;
the lineage effects of the completed units of work before the raise are
applied faithfully. -/

/-- A row of `ingestion.file_manifest`.  `created_at` is the insertion
timestamp used by the `ORDER BY created_at DESC` lookup. -/
structure ManifestRow where
  snapshot_id : String
  filename : String
  file_hash : String
  file_size_bytes : Nat
  row_count : Nat
  created_at : Nat
  deriving Repr, DecidableEq

/-- A row of `ingestion.runs`. -/
structure RunRow where
  run_id : String
  snapshot_id : String
  status : String
  error_message : Option String
  deriving Repr, DecidableEq

/-- A row of `ingestion.file_loads`. -/
structure FileLoadRow where
  run_id : String
  filename : String
  status : String
  rows_inserted : Nat
  message : Option String
  deriving Repr, DecidableEq

/-- The lineage store.  `clock` supplies strictly increasing
`created_at` stamps for manifest inserts. -/
structure IngestState where
  runs : List RunRow
  file_loads : List FileLoadRow
  file_manifest : List ManifestRow
  clock : Nat
  deriving Repr, DecidableEq

/-- One step of the `ORDER BY created_at DESC LIMIT 1` scan: keep the
row with the larger `created_at` (later-inserted row on a tie, as the
stamps are strictly increasing in generated states). -/
def latestStep (acc : Option ManifestRow) (r : ManifestRow) : Option ManifestRow :=
  match acc with
  | none => some r
  | some a => if a.created_at ≤ r.created_at then some r else some a

/-- The row returned by
`SELECT file_hash FROM ingestion.file_manifest WHERE filename = %s
ORDER BY created_at DESC LIMIT 1`. -/
def latestManifestRow (rows : List ManifestRow) (filename : String) : Option ManifestRow :=
  (rows.filter (fun r => r.filename == filename)).foldl latestStep none

/-- `_file_changed` (load_bronze.py lines 27-42): true when no hash was
ever recorded for the filename or the most recently recorded hash
differs from the new one. -/
def _file_changed (st : IngestState) (filename new_hash : String) : Bool :=
  match latestManifestRow st.file_manifest filename with
  | none => true
  | some r => r.file_hash != new_hash

/-- The `DO UPDATE` clause of the manifest upsert, applied to one row:
update the hash, size and row count of the conflicting
(snapshot, filename) row, leaving `created_at` untouched. -/
def manifestUpd (snapshot_id filename file_hash : String)
    (file_size row_count : Nat) (r : ManifestRow) : ManifestRow :=
  if r.snapshot_id == snapshot_id && r.filename == filename then
    { r with file_hash := file_hash, file_size_bytes := file_size,
             row_count := row_count }
  else r

/-- `_record_file_manifest` (load_bronze.py lines 44-56):
`INSERT ... ON CONFLICT (snapshot_id, filename) DO UPDATE`. -/
def _record_file_manifest (st : IngestState) (snapshot_id filename file_hash : String)
    (file_size row_count : Nat) : IngestState :=
  if st.file_manifest.any (fun r => r.snapshot_id == snapshot_id && r.filename == filename) then
    { st with file_manifest :=
        (st.file_manifest.map (manifestUpd snapshot_id filename file_hash file_size row_count)) }
  else
    { st with
      file_manifest := st.file_manifest ++
        [⟨snapshot_id, filename, file_hash, file_size, row_count, st.clock⟩],
      clock := st.clock + 1 }

/-- `_register_run` (load_bronze.py lines 58-64). -/
def _register_run (st : IngestState) (run_id snapshot_id : String) : IngestState :=
  { st with runs := st.runs ++ [⟨run_id, snapshot_id, "started", none⟩] }

/-- The `UPDATE ingestion.runs SET ...` applied to one row. -/
def runUpd (run_id status : String) (error_message : Option String)
    (r : RunRow) : RunRow :=
  if r.run_id == run_id then
    { r with status := status, error_message := error_message }
  else r

/-- `_complete_run` (load_bronze.py lines 66-75). -/
def _complete_run (st : IngestState) (run_id status : String)
    (error_message : Option String) : IngestState :=
  { st with runs := st.runs.map (runUpd run_id status error_message) }

/-- `_register_file_load` (load_bronze.py lines 77-87):
`INSERT ... ON CONFLICT (run_id, filename) DO NOTHING`. -/
def _register_file_load (st : IngestState) (run_id file_name : String) : IngestState :=
  if st.file_loads.any (fun r => r.run_id == run_id && r.filename == file_name) then st
  else { st with file_loads := st.file_loads ++ [⟨run_id, file_name, "pending", 0, none⟩] }

/-- The `UPDATE ingestion.file_loads SET ...` applied to one row. -/
def fileLoadUpd (run_id file_name status : String) (rows_inserted : Nat)
    (message : Option String) (r : FileLoadRow) : FileLoadRow :=
  if r.run_id == run_id && r.filename == file_name then
    { r with status := status, rows_inserted := rows_inserted, message := message }
  else r

/-- `_complete_file_load` (load_bronze.py lines 89-99); `rows_inserted`
defaults to 0 on the failure path. -/
def _complete_file_load (st : IngestState) (run_id file_name status : String)
    (rows_inserted : Nat) (message : Option String) : IngestState :=
  { st with file_loads :=
      (st.file_loads.map (fileLoadUpd run_id file_name status rows_inserted message)) }

/-- A manifest entry for one file (`file_hashes[...]` in the
orchestrator): content hash, byte size, and the optional `row_count`
key. -/
structure FileMeta where
  hash : String
  size : Nat
  row_count : Option Nat
  deriving Repr, DecidableEq

/-- Where (if anywhere) the per-file `try` block of the orchestrator
raises: `ok rows` — the whole block succeeds with `rows` staged rows;
`loadFail` — `load_csv_via_temp_table` raises (text `msg`);
`manifestFail rows msg` — the load succeeded with `rows` rows but
`_record_file_manifest` raises; `qualityFail rows msg` — the load and
the manifest recording succeeded but the quality checks or their
persistence raise. -/
inductive FileOutcome
  | ok (rows : Nat)
  | loadFail (msg : String)
  | manifestFail (rows : Nat) (msg : String)
  | qualityFail (rows : Nat) (msg : String)
  deriving Repr, DecidableEq

/-- Whether the outcome is a raise caught by the per-file boundary. -/
def FileOutcome.isFail : FileOutcome → Bool
  | .ok _ => false
  | _ => true

/-- The environment of one orchestrator run: the configured
`FILE_TO_TABLE` pipeline in declaration order, which files are present
in the snapshot's raw directory, the manifest's per-file metadata, and
the per-file outcome oracle. -/
structure OrchEnv where
  pipeline : List (String × String)
  present : String → Bool
  file_hashes : List (String × FileMeta)
  outcome : String → FileOutcome

/-- Observable per-file actions of the orchestrator, used to express
"no staged load is attempted". -/
inductive OrchOp
  | skippedMissing (filename : String)
  | skippedUnchanged (filename : String)
  | loadAttempt (filename : String)
  deriving Repr, DecidableEq

/-- The loop accumulator of `load`: lineage state, the `results` list
(abstracted to each load's `rows_inserted`), the `failed_tables` list,
and the action trace. -/
structure LoopAcc where
  st : IngestState
  results : List Nat
  failed_tables : List String
  trace : List OrchOp

/-- The body of the per-file `try` block plus its `except` handler
(load_bronze.py lines 148-180), given that the file is processed. -/
def processAttempt (env : OrchEnv) (snapshot_id run_id : String) (acc : LoopAcc)
    (file_name table_name : String) (file_meta : Option FileMeta) : LoopAcc :=
  let st1 := _register_file_load acc.st run_id file_name
  match env.outcome file_name with
  | .ok rows =>
      let st2 := match file_meta with
        | some m => _record_file_manifest st1 snapshot_id file_name m.hash m.size rows
        | none => st1
      -- quality checks run here and are persisted; their verdicts are
      -- advisory and leave the lineage rows modelled here unchanged
      { st := _complete_file_load st2 run_id file_name "loaded" rows none,
        results := acc.results ++ [rows],
        failed_tables := acc.failed_tables,
        trace := acc.trace ++ [.loadAttempt file_name] }
  | .loadFail msg =>
      { st := _complete_file_load st1 run_id file_name "failed" 0 (some msg),
        results := acc.results,
        failed_tables := acc.failed_tables ++ [table_name],
        trace := acc.trace ++ [.loadAttempt file_name] }
  | .manifestFail rows msg =>
      -- the load succeeded, so its result was already appended to
      -- `results` before the manifest write raised
      { st := _complete_file_load st1 run_id file_name "failed" 0 (some msg),
        results := acc.results ++ [rows],
        failed_tables := acc.failed_tables ++ [table_name],
        trace := acc.trace ++ [.loadAttempt file_name] }
  | .qualityFail rows msg =>
      let st2 := match file_meta with
        | some m => _record_file_manifest st1 snapshot_id file_name m.hash m.size rows
        | none => st1
      { st := _complete_file_load st2 run_id file_name "failed" 0 (some msg),
        results := acc.results ++ [rows],
        failed_tables := acc.failed_tables ++ [table_name],
        trace := acc.trace ++ [.loadAttempt file_name] }

/-- One iteration of the orchestrator's file loop (load_bronze.py lines
136-180): skip a missing file, skip an unchanged file when the
manifest supplies its hash, otherwise register a pending FileLoad and
run the `try` block. -/
def processFile (env : OrchEnv) (snapshot_id run_id : String)
    (acc : LoopAcc) (entry : String × String) : LoopAcc :=
  if env.present entry.1 = false then
    { acc with trace := acc.trace ++ [.skippedMissing entry.1] }
  else
    match env.file_hashes.lookup entry.1 with
    | some m =>
        if _file_changed acc.st entry.1 m.hash = false then
          { acc with trace := acc.trace ++ [.skippedUnchanged entry.1] }
        else processAttempt env snapshot_id run_id acc entry.1 entry.2 (some m)
    | none => processAttempt env snapshot_id run_id acc entry.1 entry.2 none

/-- The `LoadSummary` dataclass (results abstracted to the per-load
`rows_inserted`). -/
structure LoadSummary where
  run_id : String
  snapshot_id : String
  tables_loaded : Nat
  total_rows : Nat
  results : List Nat
  deriving Repr, DecidableEq

/-- The Python `f"failed tables: {failed_tables}"` message, with the
list rendered without per-element quotes. -/
def pyListString (l : List String) : String :=
  "[" ++ String.intercalate ", " l ++ "]"

/-- Shallow embedding of `load` (load_bronze.py lines 101-200) from the
health check on: abort on an unhealthy database, register the run,
process every configured file, then finalise the run row as `success`
exactly when no file failed, else as `failed` with the failed-tables
message. -/
def load (env : OrchEnv) (healthy : Bool) (st0 : IngestState)
    (snapshot_id run_id : String) :
    Except String (IngestState × List OrchOp × LoadSummary) :=
  if healthy = false then .error "database is unhealthy" else
  let st1 := _register_run st0 run_id snapshot_id
  let acc := env.pipeline.foldl (processFile env snapshot_id run_id) ⟨st1, [], [], []⟩
  let run_status := if acc.failed_tables.isEmpty then "success" else "failed"
  let error_msg := if acc.failed_tables.isEmpty then none
    else some ("failed tables: " ++ pyListString acc.failed_tables)
  let st2 := _complete_run acc.st run_id run_status error_msg
  .ok (st2, acc.trace,
    ⟨run_id, snapshot_id, acc.results.length, acc.results.sum, acc.results⟩)

/-- The skip decision the loop takes for one file, as a function of the
state at the time the file is reached. -/
inductive FileDecision
  | missing
  | unchanged
  | attempt
  deriving Repr, DecidableEq

def decideFile (env : OrchEnv) (st : IngestState) (f : String) : FileDecision :=
  if env.present f = false then .missing
  else
    match env.file_hashes.lookup f with
    | some m => if _file_changed st f m.hash = false then .unchanged else .attempt
    | none => .attempt

/-- The final `ingestion.file_loads` row produced for an attempted
file, by outcome of its `try` block. -/
def finalFileLoadRow (run_id file_name : String) : FileOutcome → FileLoadRow
  | .ok rows => ⟨run_id, file_name, "loaded", rows, none⟩
  | .loadFail msg => ⟨run_id, file_name, "failed", 0, some msg⟩
  | .manifestFail _ msg => ⟨run_id, file_name, "failed", 0, some msg⟩
  | .qualityFail _ msg => ⟨run_id, file_name, "failed", 0, some msg⟩

/-- The FileLoad rows a run appends, one per attempted file. -/
def expectedRows (env : OrchEnv) (st : IngestState) (run_id : String)
    (files : List (String × String)) : List FileLoadRow :=
  files.filterMap (fun e =>
    match decideFile env st e.1 with
    | .attempt => some (finalFileLoadRow run_id e.1 (env.outcome e.1))
    | _ => none)

/-- The tables collected in `failed_tables`: one per attempted file
whose `try` block raises. -/
def expectedFails (env : OrchEnv) (st : IngestState)
    (files : List (String × String)) : List String :=
  files.filterMap (fun e =>
    match decideFile env st e.1 with
    | .attempt => if (env.outcome e.1).isFail then some e.2 else none
    | _ => none)

/-- The per-file action the loop records. -/
def traceOp (env : OrchEnv) (st : IngestState) (f : String) : OrchOp :=
  match decideFile env st f with
  | .missing => .skippedMissing f
  | .unchanged => .skippedUnchanged f
  | .attempt => .loadAttempt f

/-- The action trace of a whole run. -/
def expectedTrace (env : OrchEnv) (st : IngestState)
    (files : List (String × String)) : List OrchOp :=
  files.map (fun e => traceOp env st e.1)

/-- Concrete run environment for exercising the orchestrator: two
configured files, the first one's load raises, the second succeeds. -/
def envW : OrchEnv :=
  { pipeline := [("a.csv", "orders"), ("b.csv", "customers")],
    present := fun _ => true,
    file_hashes := [("a.csv", ⟨"h1", 10, some 3⟩)],
    outcome := fun fn => if fn == "a.csv" then .loadFail "boom" else .ok 5 }

/-- An empty lineage store. -/
def stW : IngestState := ⟨[], [], [], 0⟩

/-- Concrete run environment for the unchanged-file skip: one previous
manifest row for a.csv with the same hash the manifest now supplies. -/
def envW9 : OrchEnv :=
  { pipeline := [("a.csv", "orders"), ("b.csv", "customers")],
    present := fun _ => true,
    file_hashes := [("a.csv", ⟨"h1", 10, some 3⟩)],
    outcome := fun _ => .ok 5 }

/-- A lineage store already holding a manifest row for a.csv with hash
h1. -/
def stW9 : IngestState := ⟨[], [], [⟨"snapOld", "a.csv", "h1", 10, 3, 0⟩], 1⟩

/-! ### Theorems -/

/-- Computation of a fault-free staged load: the committed table is the
previous content minus the rows of the same snapshot, plus the staged
CSV rows tagged with the lineage values; `rows_inserted` is the staged
row count and `rows_deleted` the number of replaced rows. -/
theorem load_ok (cwd : AbsPath) (fs : Fs) (db : BronzeTable) (p : LoadParams)
    (fileRows : List Payload)
    (hT : p.table_name ∈ ALLOWED_TABLES)
    (hP : commonPath (cwd ++ ["Data"]) p.csv_path = cwd ++ ["Data"])
    (hF : fsLookup fs p.csv_path = some fileRows) :
    load_csv_via_temp_table cwd fs none db p =
      (db.filter (fun r => !(r.snapshotId == p.snapshot_id)) ++ fileRows.map (mkBronzeRow p),
       [SqlOp.createTemp, .alterDropCol "_snapshot_id", .alterDropCol "_run_id",
        .alterDropCol "_inserted_at", .alterDropCol "_source_file", .copyIn,
        .selectCount, .deleteWhere, .insertSelect, .selectCount, .commitTx],
       .ok ⟨p.table_name, p.snapshot_id, p.run_id, fileRows.length,
            countSnapRows db p.snapshot_id⟩) := by
  simp [load_csv_via_temp_table, hT, hP, hF, runSteps, dbSteps, stepRun,
    METADATA_COLS, countSnapRows]

theorem filter_not_snap_map (p : LoadParams) (rows : List Payload) :
    (rows.map (mkBronzeRow p)).filter (fun r => !(r.snapshotId == p.snapshot_id)) = [] := by
  induction rows with
  | nil => rfl
  | cons a l ih => simp only [List.map_cons, List.filter_cons]; simp [mkBronzeRow, ih]

theorem filter_snap_map (p : LoadParams) (rows : List Payload) :
    (rows.map (mkBronzeRow p)).filter (fun r => r.snapshotId == p.snapshot_id)
      = rows.map (mkBronzeRow p) := by
  induction rows with
  | nil => rfl
  | cons a l ih => simp only [List.map_cons, List.filter_cons]; simp [mkBronzeRow, ih]

theorem filter_not_then_not (db : BronzeTable) (s : String) :
    ((db.filter (fun r => !(r.snapshotId == s))).filter (fun r => !(r.snapshotId == s)))
      = db.filter (fun r => !(r.snapshotId == s)) := by
  induction db with
  | nil => rfl
  | cons a l ih =>
      by_cases h : a.snapshotId = s <;> simp [h, ih]

theorem filter_snap_of_filter_not (db : BronzeTable) (s : String) :
    ((db.filter (fun r => !(r.snapshotId == s))).filter (fun r => r.snapshotId == s)) = [] := by
  induction db with
  | nil => rfl
  | cons a l ih =>
      by_cases h : a.snapshotId = s <;> simp [h, ih]

/-- Claim C1: for every file and snapshot id, running the staged load
twice with the same arguments leaves the target table with the same
final content (hence the same row count) as running it once, because
the load first deletes all target rows tagged with the snapshot id and
then inserts the staged rows; in particular the second run deletes
exactly the rows the first run inserted, so the second `LoadResult`
has `rows_deleted` equal to the first run's `rows_inserted` (both are
the staged row count). -/
theorem C1_load_idempotent (cwd : AbsPath) (fs : Fs) (db : BronzeTable)
    (p : LoadParams) (fileRows : List Payload)
    (hT : p.table_name ∈ ALLOWED_TABLES)
    (hP : commonPath (cwd ++ ["Data"]) p.csv_path = cwd ++ ["Data"])
    (hF : fsLookup fs p.csv_path = some fileRows) :
    (load_csv_via_temp_table cwd fs none
        (load_csv_via_temp_table cwd fs none db p).1 p).1
      = (load_csv_via_temp_table cwd fs none db p).1 ∧
    (load_csv_via_temp_table cwd fs none db p).2.2
      = .ok ⟨p.table_name, p.snapshot_id, p.run_id, fileRows.length,
             countSnapRows db p.snapshot_id⟩ ∧
    (load_csv_via_temp_table cwd fs none
        (load_csv_via_temp_table cwd fs none db p).1 p).2.2
      = .ok ⟨p.table_name, p.snapshot_id, p.run_id, fileRows.length,
             fileRows.length⟩ := by
  have h1 := load_ok cwd fs db p fileRows hT hP hF
  have h2 := load_ok cwd fs
    (db.filter (fun r => !(r.snapshotId == p.snapshot_id)) ++ fileRows.map (mkBronzeRow p))
    p fileRows hT hP hF
  refine ⟨?_, ?_, ?_⟩
  · rw [h1]
    simp only [h2]
    rw [List.filter_append, filter_not_then_not, filter_not_snap_map, List.append_nil]
  · rw [h1]
  · rw [h1]
    simp only [h2]
    have : countSnapRows
        (db.filter (fun r => !(r.snapshotId == p.snapshot_id)) ++ fileRows.map (mkBronzeRow p))
        p.snapshot_id = fileRows.length := by
      unfold countSnapRows
      rw [List.filter_append, filter_snap_of_filter_not, filter_snap_map]
      simp
    rw [this]

/-- Concrete instance of C1: one CSV row loaded twice into an initially
empty `orders` table. -/
theorem C1_witness :
    (load_csv_via_temp_table ["root"]
        [(["root", "Data", "x.csv"], [[some "a"]])] none
        ((load_csv_via_temp_table ["root"]
          [(["root", "Data", "x.csv"], [[some "a"]])] none []
          ⟨["root", "Data", "x.csv"], "orders", "snap1", "run1", "x.csv", 0⟩).1)
        ⟨["root", "Data", "x.csv"], "orders", "snap1", "run1", "x.csv", 0⟩).1
      = (load_csv_via_temp_table ["root"]
          [(["root", "Data", "x.csv"], [[some "a"]])] none []
          ⟨["root", "Data", "x.csv"], "orders", "snap1", "run1", "x.csv", 0⟩).1 ∧
    (load_csv_via_temp_table ["root"]
        [(["root", "Data", "x.csv"], [[some "a"]])] none []
        ⟨["root", "Data", "x.csv"], "orders", "snap1", "run1", "x.csv", 0⟩).2.2
      = .ok ⟨"orders", "snap1", "run1", 1,
             countSnapRows [] "snap1"⟩ ∧
    (load_csv_via_temp_table ["root"]
        [(["root", "Data", "x.csv"], [[some "a"]])] none
        ((load_csv_via_temp_table ["root"]
          [(["root", "Data", "x.csv"], [[some "a"]])] none []
          ⟨["root", "Data", "x.csv"], "orders", "snap1", "run1", "x.csv", 0⟩).1)
        ⟨["root", "Data", "x.csv"], "orders", "snap1", "run1", "x.csv", 0⟩).2.2
      = .ok ⟨"orders", "snap1", "run1", 1, 1⟩ :=
  C1_load_idempotent ["root"] [(["root", "Data", "x.csv"], [[some "a"]])] []
    ⟨["root", "Data", "x.csv"], "orders", "snap1", "run1", "x.csv", 0⟩
    [[some "a"]] (by decide) (by decide) (by decide)

/-- Claim C2: any database fault during the staged steps (staging-table
creation through the staged-row count) rolls back the entire unit of
work — the committed table content is exactly the content before the
call — and the call fails with `LoadError` carrying the target table
name and the exception text, with a rollback issued. -/
theorem C2_rollback_on_failure (cwd : AbsPath) (fs : Fs) (db : BronzeTable)
    (p : LoadParams) (fileRows : List Payload) (s : DbStep) (msg : String)
    (hT : p.table_name ∈ ALLOWED_TABLES)
    (hP : commonPath (cwd ++ ["Data"]) p.csv_path = cwd ++ ["Data"])
    (hF : fsLookup fs p.csv_path = some fileRows) :
    (load_csv_via_temp_table cwd fs (some (s, msg)) db p).1 = db ∧
    (load_csv_via_temp_table cwd fs (some (s, msg)) db p).2.2
      = .error (.loadError p.table_name msg) ∧
    SqlOp.rollbackTx ∈ (load_csv_via_temp_table cwd fs (some (s, msg)) db p).2.1 := by
  cases s <;>
    simp [load_csv_via_temp_table, hT, hP, hF, runSteps, dbSteps, stepRun, METADATA_COLS]

/-- Concrete instance of C2: a fault at the bulk-copy step leaves a
one-row table untouched and fails with `LoadError`. -/
theorem C2_witness :
    (load_csv_via_temp_table ["root"]
        [(["root", "Data", "x.csv"], [[some "a"]])]
        (some (.copyCsv, "copy failed"))
        [⟨[some "z"], "old", "r0", 0, "x.csv"⟩]
        ⟨["root", "Data", "x.csv"], "orders", "snap1", "run1", "x.csv", 0⟩).1
      = [⟨[some "z"], "old", "r0", 0, "x.csv"⟩] ∧
    (load_csv_via_temp_table ["root"]
        [(["root", "Data", "x.csv"], [[some "a"]])]
        (some (.copyCsv, "copy failed"))
        [⟨[some "z"], "old", "r0", 0, "x.csv"⟩]
        ⟨["root", "Data", "x.csv"], "orders", "snap1", "run1", "x.csv", 0⟩).2.2
      = .error (.loadError "orders" "copy failed") ∧
    SqlOp.rollbackTx ∈ (load_csv_via_temp_table ["root"]
        [(["root", "Data", "x.csv"], [[some "a"]])]
        (some (.copyCsv, "copy failed"))
        [⟨[some "z"], "old", "r0", 0, "x.csv"⟩]
        ⟨["root", "Data", "x.csv"], "orders", "snap1", "run1", "x.csv", 0⟩).2.1 :=
  C2_rollback_on_failure ["root"] [(["root", "Data", "x.csv"], [[some "a"]])]
    [⟨[some "z"], "old", "r0", 0, "x.csv"⟩]
    ⟨["root", "Data", "x.csv"], "orders", "snap1", "run1", "x.csv", 0⟩
    [[some "a"]] .copyCsv "copy failed" (by decide) (by decide) (by decide)

/-- Claim C3: for every table name outside the allow-list, the load
fails with the security `ValueError` before any SQL statement runs:
the committed table is unchanged, the statement trace is empty, and
this holds regardless of all other arguments (path, filesystem, fault,
table content). -/
theorem C3_table_allowlist (cwd : AbsPath) (fs : Fs) (fault : Fault)
    (db : BronzeTable) (p : LoadParams)
    (hT : p.table_name ∉ ALLOWED_TABLES) :
    load_csv_via_temp_table cwd fs fault db p =
      (db, [], .error (.valueError
        ("Security Error: Invalid table name " ++ p.table_name))) := by
  simp [load_csv_via_temp_table, hT]

/-- Concrete instance of C3: a disallowed table name fails with the
security error and an empty statement trace, even though the file
exists under the data root. -/
theorem C3_witness :
    load_csv_via_temp_table ["root"]
        [(["root", "Data", "x.csv"], [[some "a"]])] none
        [⟨[some "z"], "old", "r0", 0, "x.csv"⟩]
        ⟨["root", "Data", "x.csv"], "pg_catalog", "snap1", "run1", "x.csv", 0⟩ =
      ([⟨[some "z"], "old", "r0", 0, "x.csv"⟩], [],
       .error (.valueError "Security Error: Invalid table name pg_catalog")) :=
  C3_table_allowlist ["root"] [(["root", "Data", "x.csv"], [[some "a"]])] none
    [⟨[some "z"], "old", "r0", 0, "x.csv"⟩]
    ⟨["root", "Data", "x.csv"], "pg_catalog", "snap1", "run1", "x.csv", 0⟩
    (by decide)

/-- Claim C4: for every file path whose absolute resolution is not
contained in the data root `cwd/Data` (the `os.path.commonpath` check
fails), the load fails with the path `ValueError` and an empty
statement trace, for every filesystem — in particular whether or not
the file exists, since the containment check precedes the existence
check — and for every fault and table content. -/
theorem C4_path_containment (cwd : AbsPath) (fs : Fs) (fault : Fault)
    (db : BronzeTable) (p : LoadParams)
    (hT : p.table_name ∈ ALLOWED_TABLES)
    (hP : commonPath (cwd ++ ["Data"]) p.csv_path ≠ cwd ++ ["Data"]) :
    load_csv_via_temp_table cwd fs fault db p =
      (db, [], .error (.valueError "Invalid CSV path")) := by
  simp only [load_csv_via_temp_table]
  rw [if_neg (by simpa using hT)]
  simp [hP]

/-- Concrete instance of C4: a traversal path that escapes the data
root fails with the path error even though the filesystem does contain
a file at that path. -/
theorem C4_witness :
    load_csv_via_temp_table ["root"]
        [(["root", "secrets", "x.csv"], [[some "a"]])] none []
        ⟨["root", "secrets", "x.csv"], "orders", "snap1", "run1", "x.csv", 0⟩ =
      ([], [], .error (.valueError "Invalid CSV path")) :=
  C4_path_containment ["root"] [(["root", "secrets", "x.csv"], [[some "a"]])] none []
    ⟨["root", "secrets", "x.csv"], "orders", "snap1", "run1", "x.csv", 0⟩
    (by decide) (by decide)

/-- Claim C6, counterexample: when the manifest's expected row count is
unavailable (`none`), `check_row_count` does not record a skipped or
inconclusive verdict — it records a definite failure (`passed =
false`), both on a table with a landed row for the snapshot and on an
empty one, because the Python comparison `actual == None` is always
false.  This refutes the claim that the check "does not require the
actual count to equal" the absent expected value. -/
theorem C6_counterexample :
    (check_row_count [⟨"snap1", []⟩] "orders" "snap1" none).passed = false ∧
    (check_row_count [] "orders" "snap1" none).passed = false ∧
    (check_row_count [⟨"snap1", []⟩] "orders" "snap1" none).details.lookup "expected"
      = some .null ∧
    (check_row_count [⟨"snap1", []⟩] "orders" "snap1" none).details.lookup "actual"
      = some (.nat 1) := by
  decide

/-- Claim C6 as amended: `row_count` passes iff the expected count is
present and equals the snapshot's actual row count, recording expected
and actual in its details; when the expected count is unavailable
(`none`), the comparison `actual == None` is false, so the check is
recorded as failed (`passed = false`, with `expected` recorded as
null) — not as skipped or inconclusive. -/
theorem C6_row_count (tbl : QTable) (table_name snapshot_id : String)
    (expected_rows : Option Nat) :
    (check_row_count tbl table_name snapshot_id expected_rows).check_name
      = "row_count" ∧
    ((check_row_count tbl table_name snapshot_id expected_rows).passed = true ↔
      expected_rows = some (qCountRows tbl snapshot_id)) ∧
    (check_row_count tbl table_name snapshot_id expected_rows).details.lookup "expected"
      = some (match expected_rows with | some e => .nat e | none => .null) ∧
    (check_row_count tbl table_name snapshot_id expected_rows).details.lookup "actual"
      = some (.nat (qCountRows tbl snapshot_id)) ∧
    (expected_rows = none →
      (check_row_count tbl table_name snapshot_id expected_rows).passed = false) := by
  cases expected_rows with
  | none => simp [check_row_count, pyEqOptNat, qCountRows, List.lookup]
  | some e =>
      refine ⟨rfl, ?_, ?_, ?_, by simp⟩
      · simp only [check_row_count, pyEqOptNat, qCountRows, beq_iff_eq, Option.some.injEq]
        exact eq_comm
      · simp [check_row_count, List.lookup]
      · simp [check_row_count, qCountRows, List.lookup]

/-- Claim C7: for every declared primary-key column of the table, the
battery contains a `pk_null_<column>` result that passes iff zero rows
of the snapshot have a NULL in that column, and whose details always
contain the snapshot's total row count, the null count, and the null
rate `null_count / total` (rounded to four decimals), the rate being 0
when the total is 0. -/
theorem C7_pk_null_check (tbl : QTable) (table_name snapshot_id col : String)
    (hcol : col ∈ pkColumns table_name) :
    checkPkNullCol tbl table_name snapshot_id col
        ∈ check_primary_key_nulls tbl table_name snapshot_id ∧
    (checkPkNullCol tbl table_name snapshot_id col).check_name = "pk_null_" ++ col ∧
    ((checkPkNullCol tbl table_name snapshot_id col).passed = true ↔
        qCountNulls tbl snapshot_id col = 0) ∧
    (checkPkNullCol tbl table_name snapshot_id col).details.lookup "total"
        = some (.nat (qCountRows tbl snapshot_id)) ∧
    (checkPkNullCol tbl table_name snapshot_id col).details.lookup "null_count"
        = some (.nat (qCountNulls tbl snapshot_id col)) ∧
    (checkPkNullCol tbl table_name snapshot_id col).details.lookup "null_rate"
        = some (.rat (roundTo4 (if 0 < qCountRows tbl snapshot_id
            then (qCountNulls tbl snapshot_id col : ℚ) / (qCountRows tbl snapshot_id : ℚ)
            else 0))) ∧
    (qCountRows tbl snapshot_id = 0 →
      (checkPkNullCol tbl table_name snapshot_id col).details.lookup "null_rate"
        = some (.rat 0)) := by
  refine ⟨List.mem_map_of_mem _ hcol, rfl, ?_, ?_, ?_, ?_, ?_⟩
  · simp [checkPkNullCol, qCountNulls]
  · simp [checkPkNullCol, qCountRows, List.lookup]
  · simp [checkPkNullCol, qCountNulls, List.lookup]
  · simp [checkPkNullCol, qCountRows, qCountNulls, List.lookup]
  · intro h0
    have hr : roundTo4 0 = 0 := by norm_num [roundTo4]
    have h0' : (tbl.filter (fun r => r.snap == snapshot_id)).length = 0 := by
      simpa [qCountRows] using h0
    simp [checkPkNullCol, List.lookup, h0', hr]

/-- Concrete instance of C7, matching the spec's PK-null example: two
rows for the snapshot, one with a NULL `order_id`, give `passed =
false`, `null_count = 1` and `null_rate = roundTo4 (1/2)`. -/
theorem C7_witness :
    checkPkNullCol
        [⟨"s", [("order_id", none)]⟩, ⟨"s", [("order_id", some "o1")]⟩]
        "orders" "s" "order_id"
      ∈ check_primary_key_nulls
          [⟨"s", [("order_id", none)]⟩, ⟨"s", [("order_id", some "o1")]⟩] "orders" "s" ∧
    (checkPkNullCol
        [⟨"s", [("order_id", none)]⟩, ⟨"s", [("order_id", some "o1")]⟩]
        "orders" "s" "order_id").check_name = "pk_null_" ++ "order_id" ∧
    ((checkPkNullCol
        [⟨"s", [("order_id", none)]⟩, ⟨"s", [("order_id", some "o1")]⟩]
        "orders" "s" "order_id").passed = true ↔
      qCountNulls [⟨"s", [("order_id", none)]⟩, ⟨"s", [("order_id", some "o1")]⟩]
        "s" "order_id" = 0) ∧
    (checkPkNullCol
        [⟨"s", [("order_id", none)]⟩, ⟨"s", [("order_id", some "o1")]⟩]
        "orders" "s" "order_id").details.lookup "total"
      = some (.nat (qCountRows
          [⟨"s", [("order_id", none)]⟩, ⟨"s", [("order_id", some "o1")]⟩] "s")) ∧
    (checkPkNullCol
        [⟨"s", [("order_id", none)]⟩, ⟨"s", [("order_id", some "o1")]⟩]
        "orders" "s" "order_id").details.lookup "null_count"
      = some (.nat (qCountNulls
          [⟨"s", [("order_id", none)]⟩, ⟨"s", [("order_id", some "o1")]⟩] "s" "order_id")) ∧
    (checkPkNullCol
        [⟨"s", [("order_id", none)]⟩, ⟨"s", [("order_id", some "o1")]⟩]
        "orders" "s" "order_id").details.lookup "null_rate"
      = some (.rat (roundTo4 (if 0 < qCountRows
            [⟨"s", [("order_id", none)]⟩, ⟨"s", [("order_id", some "o1")]⟩] "s"
          then (qCountNulls [⟨"s", [("order_id", none)]⟩, ⟨"s", [("order_id", some "o1")]⟩]
              "s" "order_id" : ℚ)
            / (qCountRows [⟨"s", [("order_id", none)]⟩, ⟨"s", [("order_id", some "o1")]⟩]
              "s" : ℚ)
          else 0))) ∧
    (qCountRows [⟨"s", [("order_id", none)]⟩, ⟨"s", [("order_id", some "o1")]⟩] "s" = 0 →
      (checkPkNullCol
          [⟨"s", [("order_id", none)]⟩, ⟨"s", [("order_id", some "o1")]⟩]
          "orders" "s" "order_id").details.lookup "null_rate"
        = some (.rat 0)) :=
  C7_pk_null_check
    [⟨"s", [("order_id", none)]⟩, ⟨"s", [("order_id", some "o1")]⟩]
    "orders" "s" "order_id" (by decide)

/-- Exhaustive case analysis of the retry loop started with an attempt
budget of 3: the seven possible executions. -/
theorem acquire_cases (outcomes : Nat → Except PgErr Unit) :
    (outcomes 1 = .ok () ∧ _acquire_connection outcomes = (.acquired, 1, [])) ∨
    (∃ e, outcomes 1 = .error e ∧ isTransient e = false ∧
      _acquire_connection outcomes = (.raised e, 1, [])) ∨
    (∃ e, outcomes 1 = .error e ∧ isTransient e = true ∧ outcomes 2 = .ok () ∧
      _acquire_connection outcomes = (.acquired, 2, [waitExponential (1/2) 1 5 1])) ∨
    (∃ e e2, outcomes 1 = .error e ∧ isTransient e = true ∧
      outcomes 2 = .error e2 ∧ isTransient e2 = false ∧
      _acquire_connection outcomes = (.raised e2, 2, [waitExponential (1/2) 1 5 1])) ∨
    (∃ e e2, outcomes 1 = .error e ∧ isTransient e = true ∧
      outcomes 2 = .error e2 ∧ isTransient e2 = true ∧ outcomes 3 = .ok () ∧
      _acquire_connection outcomes
        = (.acquired, 3, [waitExponential (1/2) 1 5 1, waitExponential (1/2) 1 5 2])) ∨
    (∃ e e2 e3, outcomes 1 = .error e ∧ isTransient e = true ∧
      outcomes 2 = .error e2 ∧ isTransient e2 = true ∧
      outcomes 3 = .error e3 ∧ isTransient e3 = false ∧
      _acquire_connection outcomes
        = (.raised e3, 3, [waitExponential (1/2) 1 5 1, waitExponential (1/2) 1 5 2])) ∨
    (∃ e e2 e3, outcomes 1 = .error e ∧ isTransient e = true ∧
      outcomes 2 = .error e2 ∧ isTransient e2 = true ∧
      outcomes 3 = .error e3 ∧ isTransient e3 = true ∧
      _acquire_connection outcomes
        = (.retryExhausted e3, 3,
           [waitExponential (1/2) 1 5 1, waitExponential (1/2) 1 5 2])) := by
  rcases o1 : outcomes 1 with e1 | u1
  · by_cases t1 : isTransient e1 = true
    · rcases o2 : outcomes 2 with e2 | u2
      · by_cases t2 : isTransient e2 = true
        · rcases o3 : outcomes 3 with e3 | u3
          · by_cases t3 : isTransient e3 = true
            · refine Or.inr (Or.inr (Or.inr (Or.inr (Or.inr (Or.inr
                ⟨e1, e2, e3, rfl, t1, rfl, t2, rfl, t3, ?_⟩)))))
              simp [_acquire_connection, retryLoop, o1, o2, o3, t1, t2, t3]
            · rw [Bool.not_eq_true] at t3
              refine Or.inr (Or.inr (Or.inr (Or.inr (Or.inr (Or.inl
                ⟨e1, e2, e3, rfl, t1, rfl, t2, rfl, t3, ?_⟩)))))
              simp [_acquire_connection, retryLoop, o1, o2, o3, t1, t2, t3]
          · cases u3
            refine Or.inr (Or.inr (Or.inr (Or.inr (Or.inl
              ⟨e1, e2, rfl, t1, rfl, t2, rfl, ?_⟩))))
            simp [_acquire_connection, retryLoop, o1, o2, o3, t1, t2]
        · rw [Bool.not_eq_true] at t2
          refine Or.inr (Or.inr (Or.inr (Or.inl ⟨e1, e2, rfl, t1, rfl, t2, ?_⟩)))
          simp [_acquire_connection, retryLoop, o1, o2, t1, t2]
      · cases u2
        refine Or.inr (Or.inr (Or.inl ⟨e1, rfl, t1, rfl, ?_⟩))
        simp [_acquire_connection, retryLoop, o1, o2, t1]
    · rw [Bool.not_eq_true] at t1
      refine Or.inr (Or.inl ⟨e1, rfl, t1, ?_⟩)
      simp [_acquire_connection, retryLoop, o1, t1]
  · cases u1
    refine Or.inl ⟨rfl, ?_⟩
    simp [_acquire_connection, retryLoop, o1]

/-- Claim C8: connection acquisition retries only on the transient
connectivity classes (`OperationalError`, `InterfaceError`) — any
other class, e.g. the repository's configuration error or an
authentication failure surfacing under another class, propagates
immediately after a single attempt with no backoff — makes at most 3
attempts, and sleeps the tenacity exponential backoff with multiplier
0.5 clamped between 1 and 5 seconds: every attempt that is followed by
another was a transient error, the realised waits are a prefix of 1s
then 2s, and no wait of the schedule exceeds the 5-second cap. -/
theorem C8_retry_policy (outcomes : Nat → Except PgErr Unit) :
    (∀ e, outcomes 1 = .error e → isTransient e = false →
        _acquire_connection outcomes = (.raised e, 1, [])) ∧
    (_acquire_connection outcomes).2.1 ≤ 3 ∧
    ((_acquire_connection outcomes).2.2 = [] ∨
     (_acquire_connection outcomes).2.2 = [waitExponential (1/2) 1 5 1] ∨
     (_acquire_connection outcomes).2.2
        = [waitExponential (1/2) 1 5 1, waitExponential (1/2) 1 5 2]) ∧
    waitExponential (1/2) 1 5 1 = 1 ∧
    waitExponential (1/2) 1 5 2 = 2 ∧
    (∀ n : Nat, waitExponential (1/2) 1 5 n ≤ 5) ∧
    (∀ k, 1 ≤ k → k < (_acquire_connection outcomes).2.1 →
        ∃ e, outcomes k = .error e ∧ isTransient e = true) := by
  have hw : ∀ n : Nat, waitExponential (1/2) 1 5 n ≤ 5 := by
    intro n
    unfold waitExponential
    have h1 : ((1 : ℚ) / 2 * 2 ^ n) ⊓ 5 ≤ 5 := min_le_right _ _
    have h0 : ((0 : ℚ) ⊔ 1) ≤ 5 := by norm_num
    exact max_le h0 h1
  refine ⟨?_, ?_, ?_, ?_, ?_, hw, ?_⟩
  · intro e h1 hne
    simp [_acquire_connection, retryLoop, h1, hne]
  · rcases acquire_cases outcomes with ⟨_, h⟩ | ⟨e, _, _, h⟩ | ⟨e, _, _, _, h⟩ |
      ⟨e, e2, _, _, _, _, h⟩ | ⟨e, e2, _, _, _, _, _, h⟩ |
      ⟨e, e2, e3, _, _, _, _, _, _, h⟩ | ⟨e, e2, e3, _, _, _, _, _, _, h⟩ <;>
      rw [h] <;> norm_num
  · rcases acquire_cases outcomes with ⟨_, h⟩ | ⟨e, _, _, h⟩ | ⟨e, _, _, _, h⟩ |
      ⟨e, e2, _, _, _, _, h⟩ | ⟨e, e2, _, _, _, _, _, h⟩ |
      ⟨e, e2, e3, _, _, _, _, _, _, h⟩ | ⟨e, e2, e3, _, _, _, _, _, _, h⟩ <;>
      rw [h] <;> simp
  · unfold waitExponential; norm_num
  · unfold waitExponential; norm_num
  · intro k hk1 hk2
    rcases acquire_cases outcomes with ⟨_, h⟩ | ⟨e, _, _, h⟩ | ⟨e, he, ht, _, h⟩ |
      ⟨e, e2, he, ht, _, _, h⟩ | ⟨e, e2, he, ht, he2, ht2, _, h⟩ |
      ⟨e, e2, e3, he, ht, he2, ht2, _, _, h⟩ |
      ⟨e, e2, e3, he, ht, he2, ht2, _, _, h⟩ <;> rw [h] at hk2 <;> simp at hk2
    · omega
    · omega
    · have hk : k = 1 := by omega
      subst hk; exact ⟨e, he, ht⟩
    · have hk : k = 1 := by omega
      subst hk; exact ⟨e, he, ht⟩
    · interval_cases k
      · exact ⟨e, he, ht⟩
      · exact ⟨e2, he2, ht2⟩
    · interval_cases k
      · exact ⟨e, he, ht⟩
      · exact ⟨e2, he2, ht2⟩
    · interval_cases k
      · exact ⟨e, he, ht⟩
      · exact ⟨e2, he2, ht2⟩

/-- Concrete instance of C8: a server that always raises
`OperationalError` exhausts exactly 3 attempts with backoff waits of
1s and 2s. -/
theorem C8_witness :
    (∀ e, (fun _ : Nat => (.error ⟨.operationalError, "refused"⟩ : Except PgErr Unit)) 1
          = .error e → isTransient e = false →
        _acquire_connection (fun _ => .error ⟨.operationalError, "refused"⟩)
          = (.raised e, 1, [])) ∧
    (_acquire_connection (fun _ => .error ⟨.operationalError, "refused"⟩)).2.1 ≤ 3 ∧
    ((_acquire_connection (fun _ => .error ⟨.operationalError, "refused"⟩)).2.2 = [] ∨
     (_acquire_connection (fun _ => .error ⟨.operationalError, "refused"⟩)).2.2
        = [waitExponential (1/2) 1 5 1] ∨
     (_acquire_connection (fun _ => .error ⟨.operationalError, "refused"⟩)).2.2
        = [waitExponential (1/2) 1 5 1, waitExponential (1/2) 1 5 2]) ∧
    waitExponential (1/2) 1 5 1 = 1 ∧
    waitExponential (1/2) 1 5 2 = 2 ∧
    (∀ n : Nat, waitExponential (1/2) 1 5 n ≤ 5) ∧
    (∀ k, 1 ≤ k →
        k < (_acquire_connection (fun _ => .error ⟨.operationalError, "refused"⟩)).2.1 →
        ∃ e, (fun _ : Nat => (.error ⟨.operationalError, "refused"⟩ : Except PgErr Unit)) k
              = .error e ∧ isTransient e = true) :=
  C8_retry_policy (fun _ => .error ⟨.operationalError, "refused"⟩)

/-- Claim C10: `health_check` never raises — for every acquisition and
probe-query outcome it returns a dictionary, whose status is
`healthy` (with the database name and the pool statistics) exactly
when the probe succeeded, and `unhealthy` carrying the absorbed
exception's text whenever any exception occurred during connection or
the probe query. -/
theorem C10_health_check_total (acq : AcquireOutcome)
    (query : Except String Unit) (dbPool : Option PoolStats)
    (envDatabase : Option String) :
    ((health_check acq query dbPool envDatabase).status = "healthy" ∨
     (health_check acq query dbPool envDatabase).status = "unhealthy") ∧
    ((health_check acq query dbPool envDatabase).status = "healthy" ↔
      probeOutcome acq query = .ok ()) ∧
    ((health_check acq query dbPool envDatabase).status = "healthy" →
      health_check acq query dbPool envDatabase
        = ⟨"healthy", some envDatabase, some dbPool, none⟩) ∧
    (∀ e, probeOutcome acq query = .error e →
      health_check acq query dbPool envDatabase
        = ⟨"unhealthy", none, none, some e⟩) := by
  rcases h : probeOutcome acq query with _ | e <;>
    simp [health_check, h]

/-- Concrete instance of C10: a failing probe query is absorbed into an
unhealthy report. -/
theorem C10_witness :
    ((health_check .acquired (.error "connection reset") none (some "olist")).status
        = "healthy" ∨
     (health_check .acquired (.error "connection reset") none (some "olist")).status
        = "unhealthy") ∧
    ((health_check .acquired (.error "connection reset") none (some "olist")).status
        = "healthy" ↔
      probeOutcome .acquired (.error "connection reset") = .ok ()) ∧
    ((health_check .acquired (.error "connection reset") none (some "olist")).status
        = "healthy" →
      health_check .acquired (.error "connection reset") none (some "olist")
        = ⟨"healthy", some (some "olist"), some none, none⟩) ∧
    (∀ e, probeOutcome .acquired (.error "connection reset") = .error e →
      health_check .acquired (.error "connection reset") none (some "olist")
        = ⟨"unhealthy", none, none, some e⟩) :=
  C10_health_check_total .acquired (.error "connection reset") none (some "olist")

/-! #### Frame and freshness lemmas for the lineage helpers -/

theorem record_manifest_runs (st : IngestState) (snap fn hsh : String) (sz rc : Nat) :
    (_record_file_manifest st snap fn hsh sz rc).runs = st.runs := by
  unfold _record_file_manifest; split <;> rfl

theorem record_manifest_file_loads (st : IngestState) (snap fn hsh : String) (sz rc : Nat) :
    (_record_file_manifest st snap fn hsh sz rc).file_loads = st.file_loads := by
  unfold _record_file_manifest; split <;> rfl

theorem register_file_load_runs (st : IngestState) (rid f : String) :
    (_register_file_load st rid f).runs = st.runs := by
  unfold _register_file_load; split <;> rfl

theorem register_file_load_manifest (st : IngestState) (rid f : String) :
    (_register_file_load st rid f).file_manifest = st.file_manifest := by
  unfold _register_file_load; split <;> rfl

theorem complete_file_load_runs (st : IngestState) (rid f s : String)
    (n : Nat) (m : Option String) :
    (_complete_file_load st rid f s n m).runs = st.runs := rfl

theorem complete_file_load_manifest (st : IngestState) (rid f s : String)
    (n : Nat) (m : Option String) :
    (_complete_file_load st rid f s n m).file_manifest = st.file_manifest := rfl

theorem complete_run_file_loads (st : IngestState) (rid s : String) (m : Option String) :
    (_complete_run st rid s m).file_loads = st.file_loads := rfl

theorem complete_run_manifest (st : IngestState) (rid s : String) (m : Option String) :
    (_complete_run st rid s m).file_manifest = st.file_manifest := rfl

/-- `manifestUpd` never changes a row's filename. -/
theorem manifestUpd_filename (snap fn hsh : String) (sz rc : Nat) (r : ManifestRow) :
    (manifestUpd snap fn hsh sz rc r).filename = r.filename := by
  unfold manifestUpd; split <;> rfl

/-- `manifestUpd` is the identity on rows of another filename. -/
theorem manifestUpd_other (snap fn hsh : String) (sz rc : Nat) (r : ManifestRow)
    (hne : r.filename ≠ fn) :
    manifestUpd snap fn hsh sz rc r = r := by
  unfold manifestUpd
  rw [if_neg]
  intro hc
  exact hne (beq_iff_eq.mp ((Bool.and_eq_true _ _).mp hc).2)

/-- The manifest upsert's map branch does not disturb the rows of any
other filename. -/
theorem filter_map_upd (l : List ManifestRow) (snap fn hsh : String) (sz rc : Nat)
    (g : String) (hne : g ≠ fn) :
    (l.map (manifestUpd snap fn hsh sz rc)).filter (fun r => r.filename == g)
      = l.filter (fun r => r.filename == g) := by
  induction l with
  | nil => rfl
  | cons a l ih =>
      rw [List.map_cons, List.filter_cons, List.filter_cons, manifestUpd_filename]
      by_cases hg : (a.filename == g) = true
      · rw [if_pos hg, if_pos hg, ih]
        have hfn : a.filename ≠ fn := fun h => hne ((beq_iff_eq.mp hg).symm.trans h)
        rw [manifestUpd_other snap fn hsh sz rc a hfn]
      · rw [if_neg (by simp [hg]), if_neg (by simp [hg]), ih]

/-- `_record_file_manifest` does not disturb the manifest rows of any
other filename. -/
theorem record_manifest_filter_frame (st : IngestState) (snap fn hsh : String)
    (sz rc : Nat) (g : String) (hne : g ≠ fn) :
    (_record_file_manifest st snap fn hsh sz rc).file_manifest.filter
        (fun r => r.filename == g)
      = st.file_manifest.filter (fun r => r.filename == g) := by
  unfold _record_file_manifest
  split
  · exact filter_map_upd st.file_manifest snap fn hsh sz rc g hne
  · simp [List.filter_append, beq_eq_false_iff_ne.mpr (fun h => hne h.symm)]

/-- When the store holds no FileLoad row for the (run, file) pair, the
registration appends exactly the pending row. -/
theorem register_file_load_fresh (st : IngestState) (rid f : String)
    (hno : ∀ r ∈ st.file_loads, ¬(r.run_id = rid ∧ r.filename = f)) :
    _register_file_load st rid f
      = { st with file_loads := st.file_loads ++ [⟨rid, f, "pending", 0, none⟩] } := by
  unfold _register_file_load
  rw [if_neg]
  intro hany
  rcases List.any_eq_true.mp hany with ⟨r, hr, hcond⟩
  have hc := (Bool.and_eq_true _ _).mp hcond
  exact hno r hr ⟨beq_iff_eq.mp hc.1, beq_iff_eq.mp hc.2⟩

/-- `fileLoadUpd` is the identity on a non-matching row. -/
theorem fileLoadUpd_other (rid f status : String) (rows : Nat) (msg : Option String)
    (r : FileLoadRow) (hne : ¬(r.run_id = rid ∧ r.filename = f)) :
    fileLoadUpd rid f status rows msg r = r := by
  unfold fileLoadUpd
  rw [if_neg]
  intro hc
  have h2 := (Bool.and_eq_true _ _).mp hc
  exact hne ⟨beq_iff_eq.mp h2.1, beq_iff_eq.mp h2.2⟩

/-- `fileLoadUpd` rewrites the matching pending row. -/
theorem fileLoadUpd_match (rid f status : String) (rows : Nat) (msg : Option String)
    (st0 : String) (n0 : Nat) (m0 : Option String) :
    fileLoadUpd rid f status rows msg ⟨rid, f, st0, n0, m0⟩ = ⟨rid, f, status, rows, msg⟩ := by
  unfold fileLoadUpd
  rw [if_pos]
  simp

/-- The FileLoad completion map leaves untouched a list with no
matching row. -/
theorem map_complete_no_match (l : List FileLoadRow) (rid f status : String)
    (rows : Nat) (msg : Option String)
    (hno : ∀ r ∈ l, ¬(r.run_id = rid ∧ r.filename = f)) :
    l.map (fileLoadUpd rid f status rows msg) = l := by
  induction l with
  | nil => rfl
  | cons a l ih =>
      rw [List.map_cons, fileLoadUpd_other rid f status rows msg a (hno a (by simp)),
        ih (fun r hr => hno r (by simp [hr]))]

/-- `runUpd` is the identity on a non-matching row. -/
theorem runUpd_other (rid status : String) (msg : Option String) (r : RunRow)
    (hne : r.run_id ≠ rid) :
    runUpd rid status msg r = r := by
  unfold runUpd
  rw [if_neg]
  intro hc
  exact hne (beq_iff_eq.mp hc)

/-- `runUpd` rewrites the matching run row. -/
theorem runUpd_match (rid status : String) (msg : Option String)
    (snap st0 : String) (m0 : Option String) :
    runUpd rid status msg ⟨rid, snap, st0, m0⟩ = ⟨rid, snap, status, msg⟩ := by
  unfold runUpd
  rw [if_pos]
  simp

/-- The run completion map leaves untouched a list with no matching
run id. -/
theorem map_complete_run_no_match (l : List RunRow) (rid status : String)
    (msg : Option String) (hno : ∀ r ∈ l, r.run_id ≠ rid) :
    l.map (runUpd rid status msg) = l := by
  induction l with
  | nil => rfl
  | cons a l ih =>
      rw [List.map_cons, runUpd_other rid status msg a (hno a (by simp)),
        ih (fun r hr => hno r (by simp [hr]))]

/-- `_file_changed` only depends on the manifest rows of the looked-up
filename. -/
theorem file_changed_congr (st st' : IngestState) (f h : String)
    (hm : st'.file_manifest.filter (fun r => r.filename == f)
        = st.file_manifest.filter (fun r => r.filename == f)) :
    _file_changed st' f h = _file_changed st f h := by
  unfold _file_changed latestManifestRow
  rw [hm]

/-- The skip decision only depends on the manifest rows of the file. -/
theorem decideFile_congr (env : OrchEnv) (st st' : IngestState) (f : String)
    (hm : st'.file_manifest.filter (fun r => r.filename == f)
        = st.file_manifest.filter (fun r => r.filename == f)) :
    decideFile env st' f = decideFile env st f := by
  have hc : ∀ h, _file_changed st' f h = _file_changed st f h :=
    fun h => file_changed_congr st st' f h hm
  unfold decideFile
  cases hp : env.present f
  · rfl
  · cases hl : env.file_hashes.lookup f
    · rfl
    · simp [hc]

/-- A fold of `latestStep` started from a present row stays present. -/
theorem foldl_latestStep_some (l : List ManifestRow) :
    ∀ x : ManifestRow, ∃ y, l.foldl latestStep (some x) = some y := by
  induction l with
  | nil => exact fun x => ⟨x, rfl⟩
  | cons a l ih =>
      intro x
      simp only [List.foldl_cons, latestStep]
      split <;> exact ih _

/-- The `LIMIT 1` lookup is empty exactly when the filename has no
manifest rows at all. -/
theorem latestManifestRow_eq_none (rows : List ManifestRow) (f : String) :
    latestManifestRow rows f = none ↔
      rows.filter (fun r => r.filename == f) = [] := by
  unfold latestManifestRow
  cases h : rows.filter (fun r => r.filename == f) with
  | nil => simp
  | cons a l =>
      simp only [List.foldl_cons, latestStep]
      rcases foldl_latestStep_some l a with ⟨y, hy⟩
      simp [hy]

theorem finalFileLoadRow_filename (rid f : String) (o : FileOutcome) :
    (finalFileLoadRow rid f o).filename = f := by
  cases o <;> rfl

theorem finalFileLoadRow_run_id (rid f : String) (o : FileOutcome) :
    (finalFileLoadRow rid f o).run_id = rid := by
  cases o <;> rfl

/-- Completing the FileLoad of a freshly registered (run, file) pair
rewrites exactly the pending row. -/
theorem attempt_state_char (acc stM : IngestState) (rid f status : String)
    (rows : Nat) (msg : Option String)
    (hno : ∀ r ∈ acc.file_loads, ¬(r.run_id = rid ∧ r.filename = f))
    (hruns : stM.runs = acc.runs)
    (hfl : stM.file_loads = acc.file_loads ++ [⟨rid, f, "pending", 0, none⟩])
    (hman : ∀ g, g ≠ f → stM.file_manifest.filter (fun r => r.filename == g)
        = acc.file_manifest.filter (fun r => r.filename == g)) :
    (_complete_file_load stM rid f status rows msg).runs = acc.runs ∧
    (_complete_file_load stM rid f status rows msg).file_loads
      = acc.file_loads ++ [⟨rid, f, status, rows, msg⟩] ∧
    (∀ g, g ≠ f →
      (_complete_file_load stM rid f status rows msg).file_manifest.filter
          (fun r => r.filename == g)
        = acc.file_manifest.filter (fun r => r.filename == g)) := by
  refine ⟨hruns, ?_, ?_⟩
  · show stM.file_loads.map (fileLoadUpd rid f status rows msg) = _
    rw [hfl, List.map_append, map_complete_no_match _ _ _ _ _ _ hno,
      List.map_singleton, fileLoadUpd_match]
  · intro g hg
    show stM.file_manifest.filter _ = _
    exact hman g hg

/-- Characterisation of `processAttempt`: an attempted file appends
exactly its final FileLoad row, contributes its table to
`failed_tables` exactly when its `try` block raises, records one
`loadAttempt` action, and leaves other filenames' manifest rows
untouched. -/
theorem processAttempt_char (env : OrchEnv) (snap rid : String) (acc : LoopAcc)
    (f t : String) (meta : Option FileMeta)
    (hno : ∀ r ∈ acc.st.file_loads, ¬(r.run_id = rid ∧ r.filename = f)) :
    (processAttempt env snap rid acc f t meta).st.runs = acc.st.runs ∧
    (processAttempt env snap rid acc f t meta).st.file_loads
      = acc.st.file_loads ++ [finalFileLoadRow rid f (env.outcome f)] ∧
    (processAttempt env snap rid acc f t meta).failed_tables
      = acc.failed_tables ++ (if (env.outcome f).isFail then [t] else []) ∧
    (processAttempt env snap rid acc f t meta).trace
      = acc.trace ++ [.loadAttempt f] ∧
    (∀ g, g ≠ f →
      (processAttempt env snap rid acc f t meta).st.file_manifest.filter
          (fun r => r.filename == g)
        = acc.st.file_manifest.filter (fun r => r.filename == g)) := by
  have hreg := register_file_load_fresh acc.st rid f hno
  have hruns1 : (_register_file_load acc.st rid f).runs = acc.st.runs := by rw [hreg]
  have hfl1 : (_register_file_load acc.st rid f).file_loads
      = acc.st.file_loads ++ [⟨rid, f, "pending", 0, none⟩] := by rw [hreg]
  have hman1 : ∀ g, g ≠ f →
      (_register_file_load acc.st rid f).file_manifest.filter (fun r => r.filename == g)
        = acc.st.file_manifest.filter (fun r => r.filename == g) := by
    intro g _; rw [hreg]
  have hrec : ∀ (hs : String) (szz rr : Nat),
      (_record_file_manifest (_register_file_load acc.st rid f) snap f hs szz rr).runs
        = acc.st.runs ∧
      (_record_file_manifest (_register_file_load acc.st rid f) snap f hs szz rr).file_loads
        = acc.st.file_loads ++ [⟨rid, f, "pending", 0, none⟩] ∧
      (∀ g, g ≠ f →
        List.filter (fun r => r.filename == g)
            (_record_file_manifest (_register_file_load acc.st rid f) snap f hs szz rr).file_manifest
          = List.filter (fun r => r.filename == g) acc.st.file_manifest) := by
    intro hs szz rr
    refine ⟨?_, ?_, ?_⟩
    · rw [record_manifest_runs, hruns1]
    · rw [record_manifest_file_loads, hfl1]
    · intro g hg
      rw [record_manifest_filter_frame _ _ _ _ _ _ _ hg, hman1 g hg]
  cases ho : env.outcome f with
  | ok rows =>
      cases meta with
      | none =>
          obtain ⟨h1, h2, h3⟩ := attempt_state_char acc.st (_register_file_load acc.st rid f)
            rid f "loaded" rows none hno hruns1 hfl1 hman1
          simp only [processAttempt, ho, finalFileLoadRow, FileOutcome.isFail]
          refine ⟨h1, h2, ?_, ?_, h3⟩ <;> simp
      | some m =>
          obtain ⟨r1, r2, r3⟩ := hrec m.hash m.size rows
          obtain ⟨h1, h2, h3⟩ := attempt_state_char acc.st
            (_record_file_manifest (_register_file_load acc.st rid f) snap f m.hash m.size rows)
            rid f "loaded" rows none hno r1 r2 r3
          simp only [processAttempt, ho, finalFileLoadRow, FileOutcome.isFail]
          refine ⟨h1, h2, ?_, ?_, h3⟩ <;> simp
  | loadFail msg =>
      cases meta with
      | none =>
          obtain ⟨h1, h2, h3⟩ := attempt_state_char acc.st (_register_file_load acc.st rid f)
            rid f "failed" 0 (some msg) hno hruns1 hfl1 hman1
          simp only [processAttempt, ho, finalFileLoadRow, FileOutcome.isFail]
          refine ⟨h1, h2, ?_, ?_, h3⟩ <;> simp
      | some m =>
          obtain ⟨h1, h2, h3⟩ := attempt_state_char acc.st (_register_file_load acc.st rid f)
            rid f "failed" 0 (some msg) hno hruns1 hfl1 hman1
          simp only [processAttempt, ho, finalFileLoadRow, FileOutcome.isFail]
          refine ⟨h1, h2, ?_, ?_, h3⟩ <;> simp
  | manifestFail rows msg =>
      cases meta with
      | none =>
          obtain ⟨h1, h2, h3⟩ := attempt_state_char acc.st (_register_file_load acc.st rid f)
            rid f "failed" 0 (some msg) hno hruns1 hfl1 hman1
          simp only [processAttempt, ho, finalFileLoadRow, FileOutcome.isFail]
          refine ⟨h1, h2, ?_, ?_, h3⟩ <;> simp
      | some m =>
          obtain ⟨h1, h2, h3⟩ := attempt_state_char acc.st (_register_file_load acc.st rid f)
            rid f "failed" 0 (some msg) hno hruns1 hfl1 hman1
          simp only [processAttempt, ho, finalFileLoadRow, FileOutcome.isFail]
          refine ⟨h1, h2, ?_, ?_, h3⟩ <;> simp
  | qualityFail rows msg =>
      cases meta with
      | none =>
          obtain ⟨h1, h2, h3⟩ := attempt_state_char acc.st (_register_file_load acc.st rid f)
            rid f "failed" 0 (some msg) hno hruns1 hfl1 hman1
          simp only [processAttempt, ho, finalFileLoadRow, FileOutcome.isFail]
          refine ⟨h1, h2, ?_, ?_, h3⟩ <;> simp
      | some m =>
          obtain ⟨r1, r2, r3⟩ := hrec m.hash m.size rows
          obtain ⟨h1, h2, h3⟩ := attempt_state_char acc.st
            (_record_file_manifest (_register_file_load acc.st rid f) snap f m.hash m.size rows)
            rid f "failed" 0 (some msg) hno r1 r2 r3
          simp only [processAttempt, ho, finalFileLoadRow, FileOutcome.isFail]
          refine ⟨h1, h2, ?_, ?_, h3⟩ <;> simp

/-- Characterisation of one loop iteration in terms of the skip
decision taken against the state at that point. -/
theorem processFile_char (env : OrchEnv) (snap rid : String) (acc : LoopAcc)
    (entry : String × String)
    (hno : ∀ r ∈ acc.st.file_loads, ¬(r.run_id = rid ∧ r.filename = entry.1)) :
    (processFile env snap rid acc entry).st.runs = acc.st.runs ∧
    (processFile env snap rid acc entry).st.file_loads = acc.st.file_loads ++
      (match decideFile env acc.st entry.1 with
       | .attempt => [finalFileLoadRow rid entry.1 (env.outcome entry.1)]
       | _ => []) ∧
    (processFile env snap rid acc entry).failed_tables = acc.failed_tables ++
      (match decideFile env acc.st entry.1 with
       | .attempt => (if (env.outcome entry.1).isFail then [entry.2] else [])
       | _ => []) ∧
    (processFile env snap rid acc entry).trace
      = acc.trace ++ [traceOp env acc.st entry.1] ∧
    (∀ g, g ≠ entry.1 →
      List.filter (fun r => r.filename == g)
          (processFile env snap rid acc entry).st.file_manifest
        = List.filter (fun r => r.filename == g) acc.st.file_manifest) := by
  by_cases hp : env.present entry.1 = false
  · have hd : decideFile env acc.st entry.1 = .missing := by
      unfold decideFile; rw [if_pos hp]
    have hpf : processFile env snap rid acc entry
        = { acc with trace := acc.trace ++ [.skippedMissing entry.1] } := by
      unfold processFile; rw [if_pos hp]
    rw [hpf, hd]
    simp [traceOp, hd]
  · cases hl : env.file_hashes.lookup entry.1 with
    | none =>
        have hd : decideFile env acc.st entry.1 = .attempt := by
          unfold decideFile; rw [if_neg hp, hl]
        have hpf : processFile env snap rid acc entry
            = processAttempt env snap rid acc entry.1 entry.2 none := by
          unfold processFile; rw [if_neg hp, hl]
        obtain ⟨h1, h2, h3, h4, h5⟩ :=
          processAttempt_char env snap rid acc entry.1 entry.2 none hno
        rw [hpf, hd]
        refine ⟨h1, h2, h3, ?_, h5⟩
        rw [h4]
        unfold traceOp
        rw [hd]
    | some m =>
        by_cases hc : _file_changed acc.st entry.1 m.hash = false
        · have hd : decideFile env acc.st entry.1 = .unchanged := by
            unfold decideFile
            rw [if_neg hp, hl]
            exact if_pos hc
          have hpf : processFile env snap rid acc entry
              = { acc with trace := acc.trace ++ [.skippedUnchanged entry.1] } := by
            unfold processFile
            rw [if_neg hp, hl]
            exact if_pos hc
          rw [hpf, hd]
          simp [traceOp, hd]
        · have hd : decideFile env acc.st entry.1 = .attempt := by
            unfold decideFile
            rw [if_neg hp, hl]
            exact if_neg hc
          have hpf : processFile env snap rid acc entry
              = processAttempt env snap rid acc entry.1 entry.2 (some m) := by
            unfold processFile
            rw [if_neg hp, hl]
            exact if_neg hc
          obtain ⟨h1, h2, h3, h4, h5⟩ :=
            processAttempt_char env snap rid acc entry.1 entry.2 (some m) hno
          rw [hpf, hd]
          refine ⟨h1, h2, h3, ?_, h5⟩
          rw [h4]
          unfold traceOp
          rw [hd]

/-- The appended FileLoad row of an attempted file. -/
theorem expectedRows_cons (env : OrchEnv) (st : IngestState) (rid : String)
    (e : String × String) (rest : List (String × String)) :
    expectedRows env st rid (e :: rest)
      = (match decideFile env st e.1 with
         | .attempt => [finalFileLoadRow rid e.1 (env.outcome e.1)]
         | _ => []) ++ expectedRows env st rid rest := by
  unfold expectedRows
  rw [List.filterMap_cons]
  rcases decideFile env st e.1 <;> simp

theorem expectedFails_cons (env : OrchEnv) (st : IngestState)
    (e : String × String) (rest : List (String × String)) :
    expectedFails env st (e :: rest)
      = (match decideFile env st e.1 with
         | .attempt => (if (env.outcome e.1).isFail then [e.2] else [])
         | _ => []) ++ expectedFails env st rest := by
  unfold expectedFails
  rw [List.filterMap_cons]
  rcases decideFile env st e.1 <;> try simp
  by_cases hf : (env.outcome e.1).isFail = true <;> simp [hf]

theorem expectedTrace_cons (env : OrchEnv) (st : IngestState)
    (e : String × String) (rest : List (String × String)) :
    expectedTrace env st (e :: rest)
      = traceOp env st e.1 :: expectedTrace env st rest := by
  unfold expectedTrace
  rw [List.map_cons]

theorem traceOp_congr (env : OrchEnv) (st st' : IngestState) (f : String)
    (h : decideFile env st' f = decideFile env st f) :
    traceOp env st' f = traceOp env st f := by
  unfold traceOp
  rw [h]

theorem expectedRows_congr (env : OrchEnv) (st st' : IngestState) (rid : String)
    (files : List (String × String))
    (h : ∀ e ∈ files, decideFile env st' e.1 = decideFile env st e.1) :
    expectedRows env st' rid files = expectedRows env st rid files := by
  unfold expectedRows
  induction files with
  | nil => rfl
  | cons e rest ih =>
      rw [List.filterMap_cons, List.filterMap_cons, h e (by simp),
        ih (fun e' he' => h e' (by simp [he']))]

theorem expectedFails_congr (env : OrchEnv) (st st' : IngestState)
    (files : List (String × String))
    (h : ∀ e ∈ files, decideFile env st' e.1 = decideFile env st e.1) :
    expectedFails env st' files = expectedFails env st files := by
  unfold expectedFails
  induction files with
  | nil => rfl
  | cons e rest ih =>
      rw [List.filterMap_cons, List.filterMap_cons, h e (by simp),
        ih (fun e' he' => h e' (by simp [he']))]

theorem expectedTrace_congr (env : OrchEnv) (st st' : IngestState)
    (files : List (String × String))
    (h : ∀ e ∈ files, decideFile env st' e.1 = decideFile env st e.1) :
    expectedTrace env st' files = expectedTrace env st files := by
  unfold expectedTrace
  induction files with
  | nil => rfl
  | cons e rest ih =>
      rw [List.map_cons, List.map_cons, traceOp_congr env st st' e.1 (h e (by simp)),
        ih (fun e' he' => h e' (by simp [he']))]

/-- A member of the per-file appended rows is the final row of its
file. -/
theorem mem_match_attempt {env : OrchEnv} {st : IngestState} {rid : String}
    {e : String × String} {r : FileLoadRow}
    (h : r ∈ (match decideFile env st e.1 with
       | FileDecision.attempt => [finalFileLoadRow rid e.1 (env.outcome e.1)]
       | _ => ([] : List FileLoadRow))) :
    r = finalFileLoadRow rid e.1 (env.outcome e.1) := by
  rcases hd : decideFile env st e.1 <;> rw [hd] at h <;> simp at h
  exact h

/-- Characterisation of the whole file loop by induction: with distinct
configured filenames and no pre-existing FileLoad rows of this run, the
loop leaves `runs` alone, appends exactly one final FileLoad row per
attempted file, collects exactly the failed tables, records one action
per file, and the decisions of all files are taken against the initial
state. -/
theorem foldl_char (env : OrchEnv) (snap rid : String) :
    ∀ (files : List (String × String)) (acc : LoopAcc),
      (files.map Prod.fst).Nodup →
      (∀ e ∈ files, ∀ r ∈ acc.st.file_loads, ¬(r.run_id = rid ∧ r.filename = e.1)) →
      (files.foldl (processFile env snap rid) acc).st.runs = acc.st.runs ∧
      (files.foldl (processFile env snap rid) acc).st.file_loads
        = acc.st.file_loads ++ expectedRows env acc.st rid files ∧
      (files.foldl (processFile env snap rid) acc).failed_tables
        = acc.failed_tables ++ expectedFails env acc.st files ∧
      (files.foldl (processFile env snap rid) acc).trace
        = acc.trace ++ expectedTrace env acc.st files := by
  intro files
  induction files with
  | nil =>
      intro acc _ _
      simp [expectedRows, expectedFails, expectedTrace]
  | cons e rest ih =>
      intro acc hnd hno
      have hnoE : ∀ r ∈ acc.st.file_loads, ¬(r.run_id = rid ∧ r.filename = e.1) :=
        hno e (by simp)
      obtain ⟨p1, p2, p3, p4, p5⟩ := processFile_char env snap rid acc e hnoE
      have hnd' : (rest.map Prod.fst).Nodup := by
        rw [List.map_cons] at hnd
        exact (List.nodup_cons.mp hnd).2
      have hne1 : e.1 ∉ rest.map Prod.fst := by
        rw [List.map_cons] at hnd
        exact (List.nodup_cons.mp hnd).1
      have hno' : ∀ e' ∈ rest, ∀ r ∈ (processFile env snap rid acc e).st.file_loads,
          ¬(r.run_id = rid ∧ r.filename = e'.1) := by
        intro e' he' r hr hre
        rw [p2] at hr
        rcases List.mem_append.mp hr with h | h
        · exact hno e' (by simp [he']) r h hre
        · have hr2 := mem_match_attempt h
          have hfn : r.filename = e.1 := by
            rw [hr2]; exact finalFileLoadRow_filename rid e.1 (env.outcome e.1)
          apply hne1
          rw [← hfn, hre.2]
          exact List.mem_map_of_mem Prod.fst he'
      have hdec : ∀ e' ∈ rest, decideFile env (processFile env snap rid acc e).st e'.1
          = decideFile env acc.st e'.1 := by
        intro e' he'
        apply decideFile_congr
        apply p5
        intro hEq
        apply hne1
        rw [← hEq]
        exact List.mem_map_of_mem Prod.fst he'
      obtain ⟨q1, q2, q3, q4⟩ := ih (processFile env snap rid acc e) hnd' hno'
      rw [List.foldl_cons]
      refine ⟨?_, ?_, ?_, ?_⟩
      · rw [q1, p1]
      · rw [q2, expectedRows_congr env acc.st (processFile env snap rid acc e).st rid rest hdec,
          p2, expectedRows_cons, List.append_assoc]
      · rw [q3, expectedFails_congr env acc.st (processFile env snap rid acc e).st rest hdec,
          p3, expectedFails_cons, List.append_assoc]
      · rw [q4, expectedTrace_congr env acc.st (processFile env snap rid acc e).st rest hdec,
          p4, expectedTrace_cons]
        simp

/-- Unfolding of a healthy run of `load`. -/
theorem load_eq (env : OrchEnv) (st0 : IngestState) (snap rid : String) :
    load env true st0 snap rid =
      .ok (_complete_run
            (env.pipeline.foldl (processFile env snap rid)
              ⟨_register_run st0 rid snap, [], [], []⟩).st
            rid
            (if (env.pipeline.foldl (processFile env snap rid)
                  ⟨_register_run st0 rid snap, [], [], []⟩).failed_tables.isEmpty
             then "success" else "failed")
            (if (env.pipeline.foldl (processFile env snap rid)
                  ⟨_register_run st0 rid snap, [], [], []⟩).failed_tables.isEmpty
             then none
             else some ("failed tables: " ++ pyListString
               (env.pipeline.foldl (processFile env snap rid)
                 ⟨_register_run st0 rid snap, [], [], []⟩).failed_tables)),
           (env.pipeline.foldl (processFile env snap rid)
             ⟨_register_run st0 rid snap, [], [], []⟩).trace,
           ⟨rid, snap,
            (env.pipeline.foldl (processFile env snap rid)
              ⟨_register_run st0 rid snap, [], [], []⟩).results.length,
            (env.pipeline.foldl (processFile env snap rid)
              ⟨_register_run st0 rid snap, [], [], []⟩).results.sum,
            (env.pipeline.foldl (processFile env snap rid)
              ⟨_register_run st0 rid snap, [], [], []⟩).results⟩) := rfl

/-- Characterisation of a healthy run with a fresh run id: the final
lineage state appends exactly the per-file FileLoad rows and the run
row whose status reflects whether any file failed, and the trace is
one action per configured file, all decided against the initial
state. -/
theorem load_char (env : OrchEnv) (st0 : IngestState) (snap rid : String)
    (hnodup : (env.pipeline.map Prod.fst).Nodup)
    (hfresh : ∀ r ∈ st0.file_loads, r.run_id ≠ rid)
    (hrun : ∀ r ∈ st0.runs, r.run_id ≠ rid) :
    ∃ stF tr summary,
      load env true st0 snap rid = .ok (stF, tr, summary) ∧
      stF.runs = st0.runs ++
        [⟨rid, snap,
          (if (expectedFails env st0 env.pipeline).isEmpty then "success" else "failed"),
          (if (expectedFails env st0 env.pipeline).isEmpty then none
           else some ("failed tables: " ++ pyListString (expectedFails env st0 env.pipeline)))⟩] ∧
      stF.file_loads = st0.file_loads ++ expectedRows env st0 rid env.pipeline ∧
      tr = expectedTrace env st0 env.pipeline := by
  have hno : ∀ e ∈ env.pipeline, ∀ r ∈
      (⟨_register_run st0 rid snap, [], [], []⟩ : LoopAcc).st.file_loads,
      ¬(r.run_id = rid ∧ r.filename = e.1) := by
    intro e _ r hr hre
    exact hfresh r hr hre.1
  obtain ⟨q1, q2, q3, q4⟩ := foldl_char env snap rid env.pipeline
    ⟨_register_run st0 rid snap, [], [], []⟩ hnodup hno
  dsimp only at q1 q2 q3 q4
  have hdec0 : ∀ e ∈ env.pipeline,
      decideFile env (_register_run st0 rid snap) e.1 = decideFile env st0 e.1 := by
    intro e _
    exact decideFile_congr env st0 (_register_run st0 rid snap) e.1 rfl
  have hfails : (env.pipeline.foldl (processFile env snap rid)
        ⟨_register_run st0 rid snap, [], [], []⟩).failed_tables
      = expectedFails env st0 env.pipeline := by
    rw [q3, expectedFails_congr env st0 (_register_run st0 rid snap) env.pipeline hdec0]
    simp
  have hloads : (env.pipeline.foldl (processFile env snap rid)
        ⟨_register_run st0 rid snap, [], [], []⟩).st.file_loads
      = st0.file_loads ++ expectedRows env st0 rid env.pipeline := by
    rw [q2, expectedRows_congr env st0 (_register_run st0 rid snap) rid env.pipeline hdec0]
    rfl
  have htrace : (env.pipeline.foldl (processFile env snap rid)
        ⟨_register_run st0 rid snap, [], [], []⟩).trace
      = expectedTrace env st0 env.pipeline := by
    rw [q4, expectedTrace_congr env st0 (_register_run st0 rid snap) env.pipeline hdec0]
    simp
  have hruns : (env.pipeline.foldl (processFile env snap rid)
        ⟨_register_run st0 rid snap, [], [], []⟩).st.runs
      = st0.runs ++ [⟨rid, snap, "started", none⟩] := by
    rw [q1]; rfl
  rw [load_eq]
  refine ⟨_, _, _, rfl, ?_, ?_, ?_⟩
  · show ((env.pipeline.foldl (processFile env snap rid)
        ⟨_register_run st0 rid snap, [], [], []⟩).st.runs.map (runUpd rid _ _)) = _
    rw [hruns, hfails, List.map_append,
      map_complete_run_no_match st0.runs rid _ _ hrun, List.map_singleton, runUpd_match]
  · show (env.pipeline.foldl (processFile env snap rid)
        ⟨_register_run st0 rid snap, [], [], []⟩).st.file_loads = _
    exact hloads
  · exact htrace

/-- No table is collected in `failed_tables` exactly when no attempted
file's `try` block raises. -/
theorem expectedFails_eq_nil (env : OrchEnv) (st : IngestState)
    (files : List (String × String)) :
    expectedFails env st files = [] ↔
      ∀ e ∈ files, decideFile env st e.1 = .attempt →
        (env.outcome e.1).isFail = false := by
  unfold expectedFails
  rw [List.filterMap_eq_nil_iff]
  constructor
  · intro h e he hatt
    have hfe := h e he
    rw [hatt] at hfe
    cases hf : (env.outcome e.1).isFail
    · rfl
    · rw [hf] at hfe
      simp at hfe
  · intro h e he
    rcases hd : decideFile env st e.1
    · rfl
    · rfl
    · rw [h e he hd]
      rfl

/-- Claim C5: an exception raised inside one file's `try` block (staged
load, manifest recording, or quality checks) is caught at the per-file
boundary: that file's FileLoad row ends `failed` with the error text
(`expectedRows` maps a failing outcome to a failed row carrying the
message), its table joins the failures list, and processing continues —
every attempted file contributes its own final row regardless of the
other files' outcomes.  After all files the run row is `success`
exactly when no attempted file failed, and otherwise `failed` with a
message listing the failed tables. -/
theorem C5_failure_isolation (env : OrchEnv) (st0 : IngestState) (snap rid : String)
    (hnodup : (env.pipeline.map Prod.fst).Nodup)
    (hfresh : ∀ r ∈ st0.file_loads, r.run_id ≠ rid)
    (hrun : ∀ r ∈ st0.runs, r.run_id ≠ rid) :
    ∃ stF tr summary,
      load env true st0 snap rid = .ok (stF, tr, summary) ∧
      stF.file_loads = st0.file_loads ++ expectedRows env st0 rid env.pipeline ∧
      (∀ e ∈ env.pipeline, decideFile env st0 e.1 = .attempt →
        finalFileLoadRow rid e.1 (env.outcome e.1) ∈ stF.file_loads) ∧
      stF.runs = st0.runs ++
        [⟨rid, snap,
          (if (expectedFails env st0 env.pipeline).isEmpty then "success" else "failed"),
          (if (expectedFails env st0 env.pipeline).isEmpty then none
           else some ("failed tables: " ++ pyListString (expectedFails env st0 env.pipeline)))⟩] ∧
      ((expectedFails env st0 env.pipeline).isEmpty = true ↔
        ∀ e ∈ env.pipeline, decideFile env st0 e.1 = .attempt →
          (env.outcome e.1).isFail = false) := by
  obtain ⟨stF, tr, summary, heq, hruns, hloads, htr⟩ :=
    load_char env st0 snap rid hnodup hfresh hrun
  refine ⟨stF, tr, summary, heq, hloads, ?_, hruns, ?_⟩
  · intro e he hatt
    rw [hloads]
    refine List.mem_append.mpr (Or.inr ?_)
    unfold expectedRows
    exact List.mem_filterMap.mpr ⟨e, he, by rw [hatt]⟩
  · constructor
    · intro hempty
      exact (expectedFails_eq_nil env st0 env.pipeline).mp (List.isEmpty_iff.mp hempty)
    · intro hall
      exact List.isEmpty_iff.mpr ((expectedFails_eq_nil env st0 env.pipeline).mpr hall)

/-- Concrete instance of C5: files a.csv (load raises "boom") and b.csv
(5 rows) starting from an empty store. -/
theorem C5_witness :
    ∃ stF tr summary,
      load envW true stW "s1" "r1" = .ok (stF, tr, summary) ∧
      stF.file_loads = stW.file_loads ++ expectedRows envW stW "r1" envW.pipeline ∧
      (∀ e ∈ envW.pipeline, decideFile envW stW e.1 = .attempt →
        finalFileLoadRow "r1" e.1 (envW.outcome e.1) ∈ stF.file_loads) ∧
      stF.runs = stW.runs ++
        [⟨"r1", "s1",
          (if (expectedFails envW stW envW.pipeline).isEmpty then "success" else "failed"),
          (if (expectedFails envW stW envW.pipeline).isEmpty then none
           else some ("failed tables: " ++ pyListString (expectedFails envW stW envW.pipeline)))⟩] ∧
      ((expectedFails envW stW envW.pipeline).isEmpty = true ↔
        ∀ e ∈ envW.pipeline, decideFile envW stW e.1 = .attempt →
          (envW.outcome e.1).isFail = false) :=
  C5_failure_isolation envW stW "s1" "r1" (by decide)
    (by intro r hr; cases hr) (by intro r hr; cases hr)

/-- Claim C9: `_file_changed` returns true exactly when no hash was
ever recorded for the filename (no manifest row at all, regardless of
snapshot) or the most recently recorded hash differs from the new one;
and in a run where the manifest supplies a file's hash and
`_file_changed` answers false, the orchestrator records no load
attempt for that file and creates no FileLoad row for it in that
run. -/
theorem C9_unchanged_skip (env : OrchEnv) (st0 : IngestState)
    (snap rid f : String) (m : FileMeta)
    (hnodup : (env.pipeline.map Prod.fst).Nodup)
    (hfresh : ∀ r ∈ st0.file_loads, r.run_id ≠ rid)
    (hrun : ∀ r ∈ st0.runs, r.run_id ≠ rid)
    (hpresent : env.present f = true)
    (hmeta : env.file_hashes.lookup f = some m)
    (hunchanged : _file_changed st0 f m.hash = false) :
    (∀ (st : IngestState) (fn nh : String),
        _file_changed st fn nh = true ↔
          (st.file_manifest.filter (fun r => r.filename == fn) = [] ∨
           ∃ r, latestManifestRow st.file_manifest fn = some r ∧ r.file_hash ≠ nh)) ∧
    ∃ stF tr summary,
      load env true st0 snap rid = .ok (stF, tr, summary) ∧
      OrchOp.loadAttempt f ∉ tr ∧
      (∀ r ∈ stF.file_loads, r.filename = f → r.run_id ≠ rid) := by
  have hdf : decideFile env st0 f = .unchanged := by
    unfold decideFile
    rw [if_neg (by simp [hpresent]), hmeta]
    exact if_pos hunchanged
  constructor
  · intro st fn nh
    unfold _file_changed
    cases hl : latestManifestRow st.file_manifest fn with
    | none =>
        have hnil := (latestManifestRow_eq_none st.file_manifest fn).mp hl
        simp [hnil]
    | some r =>
        have hnn : ¬ st.file_manifest.filter (fun x => x.filename == fn) = [] := by
          intro h0
          have h1 := (latestManifestRow_eq_none st.file_manifest fn).mpr h0
          rw [hl] at h1
          cases h1
        simp [hnn]
  · obtain ⟨stF, tr, summary, heq, hruns, hloads, htr⟩ :=
      load_char env st0 snap rid hnodup hfresh hrun
    refine ⟨stF, tr, summary, heq, ?_, ?_⟩
    · intro hmem
      rw [htr] at hmem
      unfold expectedTrace at hmem
      rcases List.mem_map.mp hmem with ⟨e, he, heqop⟩
      by_cases hef : e.1 = f
      · rw [hef] at heqop
        unfold traceOp at heqop
        rw [hdf] at heqop
        cases heqop
      · unfold traceOp at heqop
        rcases hd : decideFile env st0 e.1 <;> rw [hd] at heqop <;> cases heqop
        exact hef rfl
    · intro r hr hrf
      rw [hloads] at hr
      rcases List.mem_append.mp hr with h | h
      · exact hfresh r h
      · exfalso
        unfold expectedRows at h
        rcases List.mem_filterMap.mp h with ⟨e, he, hfe⟩
        rcases hd : decideFile env st0 e.1 <;> rw [hd] at hfe <;> simp at hfe
        have hef : e.1 = f := by
          rw [← hrf, ← hfe, finalFileLoadRow_filename]
        rw [hef] at hd
        rw [hdf] at hd
        cases hd

/-- Concrete instance of C9: a.csv has an unchanged hash, so the run
skips it — no load attempt and no FileLoad row — while b.csv is still
processed. -/
theorem C9_witness :
    (∀ (st : IngestState) (fn nh : String),
        _file_changed st fn nh = true ↔
          (st.file_manifest.filter (fun r => r.filename == fn) = [] ∨
           ∃ r, latestManifestRow st.file_manifest fn = some r ∧ r.file_hash ≠ nh)) ∧
    ∃ stF tr summary,
      load envW9 true stW9 "s2" "r2" = .ok (stF, tr, summary) ∧
      OrchOp.loadAttempt "a.csv" ∉ tr ∧
      (∀ r ∈ stF.file_loads, r.filename = "a.csv" → r.run_id ≠ "r2") :=
  C9_unchanged_skip envW9 stW9 "s2" "r2" "a.csv" ⟨"h1", 10, some 3⟩
    (by decide) (by intro r hr; cases hr) (by intro r hr; cases hr)
    rfl (by decide) (by decide)

end Olist
